import Mathlib

/-!
Shallow embedding of the 2D Evolution Simulator (src/main.js) and proofs about
its claimed properties.  Numbers held in JS variables are modelled as exact
rationals, tile coordinates as integers, and every call to the unseeded random
source is replaced by an explicit oracle argument (a rational roll in `[0,1)`
per `Math.random()` call, threaded through the functions that consume it).
-/

namespace Evolution

/-! ## JS arithmetic helpers -/

/-- Truncating division result used by the JS `%` operator
(`trunc` rounds toward zero). -/
def ratTrunc (q : ℚ) : ℤ :=
  if q < 0 then ⌈q⌉ else ⌊q⌋

/-- The JS remainder operator `a % b` on finite numbers: `a - b * trunc(a / b)`.
(For `b = 0` JS yields `NaN`; rational division by zero yields `a` here, which
never matters at the call sites below, where the divisor is nonzero.) -/
def jsMod (a b : ℚ) : ℚ :=
  a - b * (ratTrunc (a / b) : ℚ)

/-- `Math.round`: round half toward positive infinity. -/
def jsRound (q : ℚ) : ℤ :=
  ⌊q + 1/2⌋

/-- `Math.max(0, Math.min(bound - 1, v))`, the coordinate clamp used after an
accepted move. -/
def clampCoord (bound : ℕ) (v : ℤ) : ℤ :=
  max 0 (min ((bound : ℤ) - 1) v)

/-- `arr[Math.floor(r * arr.length)]` for a roll `r`; out-of-range access
(impossible for `r` in `[0,1)` and nonempty `arr`) is totalized with `default`. -/
def randomChoice {α : Type} [Inhabited α] (arr : List α) (r : ℚ) : α :=
  arr.getD (⌊r * (arr.length : ℚ)⌋).toNat default

/-! ## Core enumerations -/

inductive Biome where
  | water
  | desert
  | snowy
  | woods
  | swamp
  | fields
deriving DecidableEq

instance : Inhabited Biome := ⟨Biome.fields⟩

/-- `const BIOMES = ["water", "desert", "snowy", "woods", "swamp", "fields"]`. -/
def BIOMES : List Biome :=
  [Biome.water, Biome.desert, Biome.snowy, Biome.woods, Biome.swamp, Biome.fields]

inductive MovementMode where
  | terrestrial
  | water
deriving DecidableEq

inductive Diet where
  | herbivore
  | carnivore
  | omnivore
deriving DecidableEq

inductive Sex where
  | M
  | F
deriving DecidableEq

/-! ## Trait genome -/

/-- The full trait record of a creature, fields in source order
(`createBaselineTraits`). -/
structure Traits where
  size : ℚ
  max_speed : ℚ
  accel : ℚ
  turn_speed : ℚ
  armor : ℚ
  attack_damage : ℚ
  venom_power : ℚ
  has_venom : Bool
  stomach_capacity : ℚ
  constriction_power : ℚ
  ram_force : ℚ
  tail_power : ℚ
  bite_force : ℚ
  vision_radius : ℚ
  fov : ℚ
  detection_chance : ℚ
  smell_range : ℚ
  night_vision : ℚ
  metabolism_rate : ℚ
  food_efficiency : ℚ
  temp_tolerance : ℚ
  toxin_resistance : ℚ
  can_hibernate : Bool
  disease_chance : ℚ
  slime_thickness : ℚ
  shell_hardness : ℚ
  offspring_per_cycle : ℚ
  repro_cooldown : ℚ
  max_age : ℚ
  care_level : ℚ
  aggression : ℚ
  caution : ℚ
  curiosity : ℚ
  grouping : ℚ
  territorial : ℚ
  risk_taking : ℚ
  camo : ℚ
  crypsis_level : ℚ
  mimicry_level : ℚ
  false_eye_spots : ℚ
  can_burrow : Bool
  burrow_speed : ℚ
  spine_damage : ℚ
  repellent_strength : ℚ
  irritant_level : ℚ
  can_autotomize : Bool
  startle_power : ℚ
  regen_rate : ℚ

/-- `createBaselineTraits()`. -/
def createBaselineTraits : Traits where
  size := 1.0
  max_speed := 1.0
  accel := 0.1
  turn_speed := 0.2
  armor := 0
  attack_damage := 1
  venom_power := 0
  has_venom := false
  stomach_capacity := 60
  constriction_power := 0
  ram_force := 0
  tail_power := 0
  bite_force := 1
  vision_radius := 5
  fov := 180
  detection_chance := 0.7
  smell_range := 3
  night_vision := 0.0
  metabolism_rate := 0.03
  food_efficiency := 1.0
  temp_tolerance := 0.0
  toxin_resistance := 0.0
  can_hibernate := false
  disease_chance := 0.0
  slime_thickness := 0.0
  shell_hardness := 0.0
  offspring_per_cycle := 1
  repro_cooldown := 200
  max_age := 2000
  care_level := 0
  aggression := 0.3
  caution := 0.5
  curiosity := 0.5
  grouping := 0.2
  territorial := 0.2
  risk_taking := 0.3
  camo := 0.0
  crypsis_level := 0.0
  mimicry_level := 0.0
  false_eye_spots := 0.0
  can_burrow := false
  burrow_speed := 0.0
  spine_damage := 0.0
  repellent_strength := 0.0
  irritant_level := 0.0
  can_autotomize := false
  startle_power := 0.0
  regen_rate := 0.0

instance : Inhabited Traits := ⟨createBaselineTraits⟩

/-! ## Mutation system -/

/-- The 28 keys of `MUTABLE_NUMERIC_TRAITS`, in source order. -/
inductive NumKey where
  | size
  | max_speed
  | armor
  | attack_damage
  | venom_power
  | vision_radius
  | food_efficiency
  | temp_tolerance
  | toxin_resistance
  | offspring_per_cycle
  | repro_cooldown
  | max_age
  | aggression
  | caution
  | curiosity
  | grouping
  | territorial
  | risk_taking
  | camo
  | crypsis_level
  | mimicry_level
  | false_eye_spots
  | burrow_speed
  | spine_damage
  | repellent_strength
  | irritant_level
  | startle_power
  | regen_rate

/-- The 4 keys of `MUTABLE_BOOLEAN_TRAITS`. -/
inductive BoolKey where
  | has_venom
  | can_hibernate
  | can_burrow
  | can_autotomize

/-- Dynamic numeric field read `t[key]`. -/
def getNum (t : Traits) : NumKey → ℚ
  | NumKey.size => t.size
  | NumKey.max_speed => t.max_speed
  | NumKey.armor => t.armor
  | NumKey.attack_damage => t.attack_damage
  | NumKey.venom_power => t.venom_power
  | NumKey.vision_radius => t.vision_radius
  | NumKey.food_efficiency => t.food_efficiency
  | NumKey.temp_tolerance => t.temp_tolerance
  | NumKey.toxin_resistance => t.toxin_resistance
  | NumKey.offspring_per_cycle => t.offspring_per_cycle
  | NumKey.repro_cooldown => t.repro_cooldown
  | NumKey.max_age => t.max_age
  | NumKey.aggression => t.aggression
  | NumKey.caution => t.caution
  | NumKey.curiosity => t.curiosity
  | NumKey.grouping => t.grouping
  | NumKey.territorial => t.territorial
  | NumKey.risk_taking => t.risk_taking
  | NumKey.camo => t.camo
  | NumKey.crypsis_level => t.crypsis_level
  | NumKey.mimicry_level => t.mimicry_level
  | NumKey.false_eye_spots => t.false_eye_spots
  | NumKey.burrow_speed => t.burrow_speed
  | NumKey.spine_damage => t.spine_damage
  | NumKey.repellent_strength => t.repellent_strength
  | NumKey.irritant_level => t.irritant_level
  | NumKey.startle_power => t.startle_power
  | NumKey.regen_rate => t.regen_rate

/-- Dynamic numeric field write `t[key] = v`. -/
def setNum (t : Traits) (k : NumKey) (v : ℚ) : Traits :=
  match k with
  | NumKey.size => { t with size := v }
  | NumKey.max_speed => { t with max_speed := v }
  | NumKey.armor => { t with armor := v }
  | NumKey.attack_damage => { t with attack_damage := v }
  | NumKey.venom_power => { t with venom_power := v }
  | NumKey.vision_radius => { t with vision_radius := v }
  | NumKey.food_efficiency => { t with food_efficiency := v }
  | NumKey.temp_tolerance => { t with temp_tolerance := v }
  | NumKey.toxin_resistance => { t with toxin_resistance := v }
  | NumKey.offspring_per_cycle => { t with offspring_per_cycle := v }
  | NumKey.repro_cooldown => { t with repro_cooldown := v }
  | NumKey.max_age => { t with max_age := v }
  | NumKey.aggression => { t with aggression := v }
  | NumKey.caution => { t with caution := v }
  | NumKey.curiosity => { t with curiosity := v }
  | NumKey.grouping => { t with grouping := v }
  | NumKey.territorial => { t with territorial := v }
  | NumKey.risk_taking => { t with risk_taking := v }
  | NumKey.camo => { t with camo := v }
  | NumKey.crypsis_level => { t with crypsis_level := v }
  | NumKey.mimicry_level => { t with mimicry_level := v }
  | NumKey.false_eye_spots => { t with false_eye_spots := v }
  | NumKey.burrow_speed => { t with burrow_speed := v }
  | NumKey.spine_damage => { t with spine_damage := v }
  | NumKey.repellent_strength => { t with repellent_strength := v }
  | NumKey.irritant_level => { t with irritant_level := v }
  | NumKey.startle_power => { t with startle_power := v }
  | NumKey.regen_rate => { t with regen_rate := v }

/-- Dynamic boolean field read. -/
def getBool (t : Traits) : BoolKey → Bool
  | BoolKey.has_venom => t.has_venom
  | BoolKey.can_hibernate => t.can_hibernate
  | BoolKey.can_burrow => t.can_burrow
  | BoolKey.can_autotomize => t.can_autotomize

/-- `t[key] = !t[key]` for a boolean trait. -/
def flipBool (t : Traits) : BoolKey → Traits
  | BoolKey.has_venom => { t with has_venom := !t.has_venom }
  | BoolKey.can_hibernate => { t with can_hibernate := !t.can_hibernate }
  | BoolKey.can_burrow => { t with can_burrow := !t.can_burrow }
  | BoolKey.can_autotomize => { t with can_autotomize := !t.can_autotomize }

/-- The per-key clamp chain of `applyMutation` (the seven `if (key === ...)`
lines); keys outside the table are left unclamped. -/
def clampFor (k : NumKey) (v : ℚ) : ℚ :=
  match k with
  | NumKey.size => max 0.3 (min v 3)
  | NumKey.max_speed => max 0.2 (min v 4)
  | NumKey.armor => max 0 (min v 5)
  | NumKey.attack_damage => max 0.1 v
  | NumKey.offspring_per_cycle => max 1 (min v 5)
  | NumKey.repro_cooldown => max 80 (min v 500)
  | NumKey.vision_radius => max 3 (min v 20)
  | _ => v

/-- One numeric perturbation of `applyMutation`: `base = t[key] || 0` (all
mutable values are numbers, and `0` is its own fallback, so this is the field
value), `delta = rand * 0.4 - 0.2`, then clamp and store. -/
def mutateOne (t : Traits) (k : NumKey) (deltaRoll : ℚ) : Traits :=
  let base := getNum t k
  let delta := deltaRoll * 0.4 - 0.2
  setNum t k (clampFor k (base + delta))

/-- The metabolism recomputation at the end of `applyMutation`. -/
def recomputeMetabolism (t : Traits) : Traits :=
  let complexity :=
    t.size +
    t.armor * 0.5 +
    t.attack_damage * 0.3 +
    t.max_speed * 0.3 +
    t.vision_radius * 0.1 +
    (if t.has_venom then (2 : ℚ) else 0) +
    t.regen_rate * 2 +
    (if t.can_burrow then (1 : ℚ) else 0) +
    (if t.can_hibernate then (0.5 : ℚ) else 0)
  { t with metabolism_rate := 0.02 + complexity * 0.003 }

/-- The random draws consumed by one `applyMutation` call. -/
structure MutRand where
  flipRoll : ℚ
  flipKey : BoolKey
  extraRoll : ℚ
  key1 : NumKey
  delta1Roll : ℚ
  key2 : NumKey
  delta2Roll : ℚ

/-- `applyMutation(traits)`: optional boolean flip (probability 0.05), one
numeric perturbation plus a second with probability 0.3, then metabolism
recomputation.  (`cloneTraits` is value copying, implicit here.) -/
def applyMutation (r : MutRand) (t : Traits) : Traits :=
  let t1 := if r.flipRoll < 0.05 then flipBool t r.flipKey else t
  let t2 := mutateOne t1 r.key1 r.delta1Roll
  let t3 := if r.extraRoll < 0.3 then mutateOne t2 r.key2 r.delta2Roll else t2
  recomputeMetabolism t3

/-! ## Species, creatures, world, simulation state -/

/-- `class Species`. -/
structure Species where
  id : ℕ
  color : String
  movementMode : MovementMode
  dietType : Diet
  isCannibal : Bool

instance : Inhabited Species :=
  ⟨⟨0, "", MovementMode.terrestrial, Diet.herbivore, false⟩⟩

/-- `class Creature`, with the species fields stamped onto the instance as in
the constructor. -/
structure Creature where
  speciesId : ℕ
  color : String
  movementMode : MovementMode
  dietType : Diet
  isCannibal : Bool
  x : ℤ
  y : ℤ
  sex : Sex
  age : ℚ
  energy : ℚ
  traits : Traits
  alive : Bool

/-- Default used to totalize out-of-range list reads (which would be
`undefined` and fault in JS); it is not alive, so it is inert everywhere. -/
instance : Inhabited Creature :=
  ⟨⟨0, "", MovementMode.terrestrial, Diet.herbivore, false, 0, 0, Sex.M, 0, 0,
    createBaselineTraits, false⟩⟩

/-- `new Creature(species, x, y, sex, traits)`: age 0, energy 50, alive. -/
def mkCreature (sp : Species) (x y : ℤ) (sex : Sex) (traits : Traits) : Creature :=
  ⟨sp.id, sp.color, sp.movementMode, sp.dietType, sp.isCannibal, x, y, sex, 0, 50,
    traits, true⟩

/-- The biome grid together with `WORLD_WIDTH` and `WORLD_HEIGHT`. -/
structure World where
  width : ℕ
  height : ℕ
  grid : List (List Biome)

/-- The mutable globals of the simulation engine (`world`, `speciesList`,
`creatures`, `year`). -/
structure SimState where
  world : World
  speciesList : List Species
  creatures : List Creature
  year : ℚ

/-- In-place update of the creature at index `i` (object mutation in JS). -/
def setC (s : SimState) (i : ℕ) (c : Creature) : SimState :=
  { s with creatures := s.creatures.set i c }

/-- `getBiome(x, y)`: out-of-bounds coordinates read as `"fields"`. -/
def getBiome (w : World) (x y : ℤ) : Biome :=
  if y < 0 ∨ (w.height : ℤ) ≤ y ∨ x < 0 ∨ (w.width : ℤ) ≤ x then Biome.fields
  else (w.grid.getD y.toNat []).getD x.toNat Biome.fields

/-- `biomeFoodValue(biome, dietType)`. -/
def biomeFoodValue (biome : Biome) (dietType : Diet) : ℚ :=
  if dietType = Diet.herbivore then
    if biome = Biome.woods ∨ biome = Biome.fields ∨ biome = Biome.swamp then 1.0 else 0.2
  else if dietType = Diet.omnivore then
    if biome = Biome.woods ∨ biome = Biome.fields ∨ biome = Biome.swamp then 0.7 else 0.3
  else 0.1

/-! ## Tick engine phases (`stepCreature`) -/

/-- Aging and hunger: `age += 1`, metabolism (times 1.3 for omnivores)
subtracted from energy. -/
def agedHungered (c : Creature) : Creature :=
  let hunger := c.traits.metabolism_rate
  let hunger2 := if c.dietType = Diet.omnivore then hunger * 1.3 else hunger
  { c with age := c.age + 1, energy := c.energy - hunger2 }

/-- Regeneration: `energy = min(stomach_capacity, energy + regen_rate)`. -/
def regenerated (c : Creature) : Creature :=
  { c with energy := min c.traits.stomach_capacity (c.energy + c.traits.regen_rate) }

/-- The eight-direction offset chain (`if (dir === 0) nx++; ...`); a value
outside `0..7` leaves the coordinates unchanged, as in the source. -/
def applyDir (dir : ℕ) (x y : ℤ) : ℤ × ℤ :=
  let p := (x, y)
  let p := if dir = 0 then (p.1 + 1, p.2) else p
  let p := if dir = 1 then (p.1 - 1, p.2) else p
  let p := if dir = 2 then (p.1, p.2 + 1) else p
  let p := if dir = 3 then (p.1, p.2 - 1) else p
  let p := if dir = 4 then (p.1 + 1, p.2 - 1) else p
  let p := if dir = 5 then (p.1 - 1, p.2 - 1) else p
  let p := if dir = 6 then (p.1 + 1, p.2 + 1) else p
  let p := if dir = 7 then (p.1 - 1, p.2 + 1) else p
  p

/-- Destination acceptance: aquatic creatures require a Water destination
biome, terrestrial ones a non-Water destination biome; an accepted move is
clamped to the grid bounds, a rejected one leaves the position unchanged. -/
def moveStep (w : World) (mode : MovementMode) (x y : ℤ) (dir : ℕ) : ℤ × ℤ :=
  let nx := (applyDir dir x y).1
  let ny := (applyDir dir x y).2
  let nextBiome := getBiome w nx ny
  if mode = MovementMode.water then
    if nextBiome = Biome.water then (clampCoord w.width nx, clampCoord w.height ny)
    else (x, y)
  else
    if nextBiome ≠ Biome.water then (clampCoord w.width nx, clampCoord w.height ny)
    else (x, y)

/-- Movement phase: with probability `0.2 + curiosity * 0.3` pick one of the
eight directions (`Math.floor(Math.random() * 8)`) and attempt the move. -/
def moved (w : World) (moveRoll dirRoll : ℚ) (c : Creature) : Creature :=
  let stepChance := 0.2 + c.traits.curiosity * 0.3
  if moveRoll < stepChance then
    let dir := (⌊dirRoll * 8⌋).toNat
    let p := moveStep w c.movementMode c.x c.y dir
    { c with x := p.1, y := p.2 }
  else c

/-- Feeding phase: add `biomeFoodValue * 0.5 * food_efficiency` for the given
biome, then clamp down to `stomach_capacity`. -/
def fed (biome : Biome) (c : Creature) : Creature :=
  let e := c.energy + biomeFoodValue biome c.dietType * 0.5 * c.traits.food_efficiency
  { c with energy := if e > c.traits.stomach_capacity then c.traits.stomach_capacity else e }

/-! ## Registry queries -/

/-- Scan of `findNearbyCreature`: first other living creature within squared
distance `r2`, in registry order.  Object identity (`other === creature`) is
modelled as index identity, faithful because the registry never aliases. -/
def findNearbyFrom (c : Creature) (selfIdx : ℕ) (r2 : ℤ) :
    List Creature → ℕ → Option ℕ
  | [], _ => none
  | o :: rest, j =>
    if o.alive = true ∧ j ≠ selfIdx ∧
        (o.x - c.x) * (o.x - c.x) + (o.y - c.y) * (o.y - c.y) ≤ r2 then some j
    else findNearbyFrom c selfIdx r2 rest (j + 1)

/-- `findNearbyCreature(creature, radius)`, returning the index of the match. -/
def findNearbyCreature (cs : List Creature) (i : ℕ) (radius : ℤ) : Option ℕ :=
  findNearbyFrom (cs.getD i default) i (radius * radius) cs 0

/-- Scan of the mate `find` in `attemptReproduction`: first living creature of
the same species and opposite sex within Chebyshev distance 1 whose energy is
at least half its stomach capacity. -/
def findMateFrom (c : Creature) (selfIdx : ℕ) :
    List Creature → ℕ → Option ℕ
  | [], _ => none
  | o :: rest, j =>
    if o.alive = true ∧ j ≠ selfIdx ∧ o.speciesId = c.speciesId ∧ o.sex ≠ c.sex ∧
        ¬(|o.x - c.x| > 1 ∨ |o.y - c.y| > 1) ∧
        ¬(o.energy < o.traits.stomach_capacity * 0.5) then some j
    else findMateFrom c selfIdx rest (j + 1)

/-- The mate lookup, returning the index of the match. -/
def findMate (cs : List Creature) (i : ℕ) : Option ℕ :=
  findMateFrom (cs.getD i default) i cs 0

/-! ## Attack resolution (`resolveAttack`) -/

/-- `resolveAttack(attacker, target)`, returning the updated pair. -/
def resolveAttack (attacker target : Creature) : Creature × Creature :=
  let damage0 := attacker.traits.attack_damage + attacker.traits.bite_force
  let armor := target.traits.armor + target.traits.shell_hardness * 2
  let damage := max 0 (damage0 - armor)
  if damage ≤ 0 then (attacker, target)
  else
    let tEnergy1 := target.energy - damage * 5
    let aEnergy1 :=
      if target.traits.spine_damage > 0 then
        attacker.energy - target.traits.spine_damage * 3
      else attacker.energy
    let tEnergy2 :=
      if attacker.traits.has_venom = true ∧ attacker.traits.venom_power > 0 then
        tEnergy1 - attacker.traits.venom_power * 2
      else tEnergy1
    if tEnergy2 ≤ 0 then
      ({ attacker with
          energy := min attacker.traits.stomach_capacity
            (aEnergy1 + 30 * attacker.traits.food_efficiency) },
       { target with energy := tEnergy2, alive := false })
    else
      ({ attacker with energy := aEnergy1 }, { target with energy := tEnergy2 })

/-! ## Crossover (`mixTraits`) -/

/-- Rolls for the four boolean picks of `mixTraits`, in key iteration order. -/
structure MixRand where
  hasVenomRoll : ℚ
  canHibernateRoll : ℚ
  canBurrowRoll : ℚ
  canAutotomizeRoll : ℚ

/-- `mixTraits(a, b)`: numeric traits average, boolean traits pick one parent
uniformly (`Math.random() < 0.5 ? va : vb`); no trait has any other type. -/
def mixTraits (r : MixRand) (a b : Traits) : Traits where
  size := (a.size + b.size) / 2
  max_speed := (a.max_speed + b.max_speed) / 2
  accel := (a.accel + b.accel) / 2
  turn_speed := (a.turn_speed + b.turn_speed) / 2
  armor := (a.armor + b.armor) / 2
  attack_damage := (a.attack_damage + b.attack_damage) / 2
  venom_power := (a.venom_power + b.venom_power) / 2
  has_venom := if r.hasVenomRoll < 0.5 then a.has_venom else b.has_venom
  stomach_capacity := (a.stomach_capacity + b.stomach_capacity) / 2
  constriction_power := (a.constriction_power + b.constriction_power) / 2
  ram_force := (a.ram_force + b.ram_force) / 2
  tail_power := (a.tail_power + b.tail_power) / 2
  bite_force := (a.bite_force + b.bite_force) / 2
  vision_radius := (a.vision_radius + b.vision_radius) / 2
  fov := (a.fov + b.fov) / 2
  detection_chance := (a.detection_chance + b.detection_chance) / 2
  smell_range := (a.smell_range + b.smell_range) / 2
  night_vision := (a.night_vision + b.night_vision) / 2
  metabolism_rate := (a.metabolism_rate + b.metabolism_rate) / 2
  food_efficiency := (a.food_efficiency + b.food_efficiency) / 2
  temp_tolerance := (a.temp_tolerance + b.temp_tolerance) / 2
  toxin_resistance := (a.toxin_resistance + b.toxin_resistance) / 2
  can_hibernate := if r.canHibernateRoll < 0.5 then a.can_hibernate else b.can_hibernate
  disease_chance := (a.disease_chance + b.disease_chance) / 2
  slime_thickness := (a.slime_thickness + b.slime_thickness) / 2
  shell_hardness := (a.shell_hardness + b.shell_hardness) / 2
  offspring_per_cycle := (a.offspring_per_cycle + b.offspring_per_cycle) / 2
  repro_cooldown := (a.repro_cooldown + b.repro_cooldown) / 2
  max_age := (a.max_age + b.max_age) / 2
  care_level := (a.care_level + b.care_level) / 2
  aggression := (a.aggression + b.aggression) / 2
  caution := (a.caution + b.caution) / 2
  curiosity := (a.curiosity + b.curiosity) / 2
  grouping := (a.grouping + b.grouping) / 2
  territorial := (a.territorial + b.territorial) / 2
  risk_taking := (a.risk_taking + b.risk_taking) / 2
  camo := (a.camo + b.camo) / 2
  crypsis_level := (a.crypsis_level + b.crypsis_level) / 2
  mimicry_level := (a.mimicry_level + b.mimicry_level) / 2
  false_eye_spots := (a.false_eye_spots + b.false_eye_spots) / 2
  can_burrow := if r.canBurrowRoll < 0.5 then a.can_burrow else b.can_burrow
  burrow_speed := (a.burrow_speed + b.burrow_speed) / 2
  spine_damage := (a.spine_damage + b.spine_damage) / 2
  repellent_strength := (a.repellent_strength + b.repellent_strength) / 2
  irritant_level := (a.irritant_level + b.irritant_level) / 2
  can_autotomize := if r.canAutotomizeRoll < 0.5 then a.can_autotomize else b.can_autotomize
  startle_power := (a.startle_power + b.startle_power) / 2
  regen_rate := (a.regen_rate + b.regen_rate) / 2

/-! ## Reproduction (`attemptReproduction`) -/

/-- Random draws consumed per offspring. -/
structure OffspringRand where
  sexRoll : ℚ
  mix : MixRand
  mutRoll : ℚ
  mutation : MutRand

/-- `creature.energy *= 0.5` on the list entry at index `i`. -/
def halveEnergyAt (cs : List Creature) (i : ℕ) : List Creature :=
  match cs.get? i with
  | none => cs
  | some c => cs.set i { c with energy := c.energy * 0.5 }

/-- `attemptReproduction(creature, index)` acting on the creature at index
`i`.  Notes matching the source: the cooldown gate is `age % repro_cooldown
!== 0`; `speciesList[creature.speciesId]` is read for each offspring (it is
the same value every time, read once here; an out-of-range id would fault in
JS and is totalized with `default`); both parents have their energy halved
after the offspring loop, whatever the offspring count. -/
def attemptReproductionAt (rnd : ℕ → OffspringRand) (i : ℕ) (s : SimState) : SimState :=
  match s.creatures.get? i with
  | none => s
  | some c =>
    if c.alive = false then s
    else if jsMod c.age c.traits.repro_cooldown ≠ 0 then s
    else
      match findMate s.creatures i with
      | none => s
      | some m =>
        let mate := s.creatures.getD m default
        let offspringCount :=
          jsRound ((c.traits.offspring_per_cycle + mate.traits.offspring_per_cycle) / 2)
        let sp := s.speciesList.getD c.speciesId default
        let kids := (List.range offspringCount.toNat).map (fun k =>
          let r := rnd k
          let childSex := if r.sexRoll < 0.5 then Sex.M else Sex.F
          let childTraits := mixTraits r.mix c.traits mate.traits
          let finalTraits :=
            if r.mutRoll < 0.4 then applyMutation r.mutation childTraits else childTraits
          mkCreature sp c.x c.y childSex finalTraits)
        let cs1 := s.creatures ++ kids
        let cs2 := halveEnergyAt cs1 i
        let cs3 := halveEnergyAt cs2 m
        { s with creatures := cs3 }

/-! ## One creature tick (`stepCreature`) -/

/-- Random draws consumed by one `stepCreature` call. -/
structure StepRand where
  moveRoll : ℚ
  dirRoll : ℚ
  attackRoll : ℚ
  repro : ℕ → OffspringRand

/-- The predation block of `stepCreature`: with probability
`aggression * 0.05` look up a nearby creature (radius 1) and attack it when
the diet and cannibalism conditions allow. -/
def predationPhase (attackRoll : ℚ) (i : ℕ) (s : SimState) : SimState :=
  let c := s.creatures.getD i default
  if attackRoll < c.traits.aggression * 0.05 then
    match findNearbyCreature s.creatures i 1 with
    | none => s
    | some j =>
      let t := s.creatures.getD j default
      if t.alive = true ∧ j ≠ i then
        let sameSpecies := t.speciesId = c.speciesId
        if (c.dietType = Diet.carnivore ∨ c.dietType = Diet.omnivore) ∧
            (¬sameSpecies ∨ (sameSpecies ∧ c.isCannibal = true)) then
          let r := resolveAttack c t
          setC (setC s i r.1) j r.2
        else s
      else s
  else s

/-- `stepCreature(creature, index)`: age and hunger, death check,
regeneration, movement, feeding (from the biome read before the movement, as
in the source), predation, and conditional reproduction. -/
def stepCreatureAt (r : StepRand) (i : ℕ) (s : SimState) : SimState :=
  match s.creatures.get? i with
  | none => s
  | some c0 =>
    if c0.alive = false then s
    else
      let c1 := agedHungered c0
      if c1.age > c1.traits.max_age ∨ c1.energy ≤ 0 then
        setC s i { c1 with alive := false }
      else
        let c2 := regenerated c1
        let biome := getBiome s.world c2.x c2.y
        let c3 := moved s.world r.moveRoll r.dirRoll c2
        let c4 := fed biome c3
        let s1 := setC s i c4
        let s2 := predationPhase r.attackRoll i s1
        let cNow := s2.creatures.getD i default
        if cNow.energy > cNow.traits.stomach_capacity * 0.7 then
          attemptReproductionAt r.repro i s2
        else s2

/-! ## One simulation step (`stepSimulation`) -/

/-- One iteration of the per-step loop body:
`if (creatures[i].alive) stepCreature(creatures[i], i)`. -/
def passTick (rnd : ℕ → StepRand) (i : ℕ) (s : SimState) : SimState :=
  if (s.creatures.getD i default).alive = true then stepCreatureAt (rnd i) i s else s

/-- The per-step loop `for (let i = 0; i < creatures.length; i++)`.  The bound
is the live list length, re-read every iteration, exactly as in JS; `fuel`
bounds the iteration count (`none` = fuel exhausted before the loop ended). -/
def runPass (rnd : ℕ → StepRand) : ℕ → ℕ → SimState → Option SimState
  | 0, _, _ => none
  | fuel + 1, i, s =>
    if i < s.creatures.length then runPass rnd fuel (i + 1) (passTick rnd i s)
    else some s

/-- Unconditional sequential ticking of the `n` indices starting at `i`; used
to state what a completed pass processed. -/
def passIter (rnd : ℕ → StepRand) : ℕ → ℕ → SimState → SimState
  | _, 0, s => s
  | i, n + 1, s => passIter rnd (i + 1) n (passTick rnd i s)

/-- `stepSimulation()`: the per-creature pass, then removal of dead creatures
gated on `year % 5 === 0`, then `year += 0.01`. -/
def stepSimulation (rnd : ℕ → StepRand) (fuel : ℕ) (s : SimState) : Option SimState :=
  match runPass rnd fuel 0 s with
  | none => none
  | some s1 =>
    let cs :=
      if jsMod s1.year 5 = 0 then s1.creatures.filter (fun c => c.alive)
      else s1.creatures
    some { s1 with creatures := cs, year := s1.year + 0.01 }

/-- `n` consecutive whole simulation steps. -/
def simSteps (rnd : ℕ → StepRand) (fuel : ℕ) : ℕ → SimState → Option SimState
  | 0, s => some s
  | n + 1, s =>
    match stepSimulation rnd fuel s with
    | none => none
    | some s2 => simSteps rnd fuel n s2

/-! ## World generation -/

/-- JS `Set.add` on an insertion-ordered deduplicated list. -/
def setAdd (l : List Biome) (b : Biome) : List Biome :=
  if b ∈ l then l else l ++ [b]

/-- The `while (chosen.size < n)` loop of `generateBiomes`; `fuel` bounds the
number of draws (the JS loop terminates with probability one but admits
unbounded draw sequences). -/
def generateBiomesLoop (draws : ℕ → ℚ) (n : ℕ) :
    ℕ → List Biome → ℕ → Option (List Biome)
  | 0, chosen, _ => if chosen.length < n then none else some chosen
  | fuel + 1, chosen, k =>
    if chosen.length < n then
      generateBiomesLoop draws n fuel (setAdd chosen (randomChoice BIOMES (draws k))) (k + 1)
    else some chosen

/-- `generateBiomes()`: start from `{water}`, draw a target size
`n = 2 + Math.floor(Math.random() * 3)`, and add uniform draws from `BIOMES`
until the set reaches size `n`. -/
def generateBiomes (nRoll : ℚ) (draws : ℕ → ℚ) (fuel : ℕ) : Option (List Biome) :=
  generateBiomesLoop draws (2 + (⌊nRoll * 3⌋).toNat) fuel [Biome.water] 0

/-- A Voronoi seed of `generateWorld`. -/
structure Seed where
  x : ℤ
  y : ℤ
  biome : Biome

/-- Random draws consumed by `generateWorld`, per seed index. -/
structure WorldRand where
  nRoll : ℚ
  paletteRolls : ℕ → ℚ
  seedXRolls : ℕ → ℚ
  seedYRolls : ℕ → ℚ
  seedBiomeRolls : ℕ → ℚ
  rerollRolls : ℕ → ℚ
  rerollPickRolls : ℕ → ℚ

/-- Construction of seed `i`: random coordinates; the first seed is forced to
Water, later seeds draw from the palette with the 0.6-probability re-roll away
from Water when the palette has another biome. -/
def mkSeed (W H : ℕ) (allowedBiomes : List Biome) (r : WorldRand) (i : ℕ) : Seed :=
  let sx := ⌊r.seedXRolls i * (W : ℚ)⌋
  let sy := ⌊r.seedYRolls i * (H : ℚ)⌋
  let biome :=
    if i = 0 then Biome.water
    else
      let b := randomChoice allowedBiomes (r.seedBiomeRolls i)
      if b = Biome.water ∧ r.rerollRolls i < 0.6 ∧ 1 < allowedBiomes.length then
        randomChoice (allowedBiomes.filter (fun bb => bb ≠ Biome.water)) (r.rerollPickRolls i)
      else b
  ⟨sx, sy, biome⟩

/-- The `numSeeds = allowedBiomes.length * 3` seed list. -/
def generateSeeds (W H : ℕ) (allowedBiomes : List Biome) (r : WorldRand) : List Seed :=
  (List.range (allowedBiomes.length * 3)).map (mkSeed W H allowedBiomes r)

/-- The nearest-seed fold: strictly closer squared distance wins, ties keep
the earlier seed (`bestDist2` starts at Infinity). -/
def bestSeedGo (x y : ℤ) : List Seed → Option (Seed × ℤ) → Option (Seed × ℤ)
  | [], best => best
  | sd :: rest, best =>
    let dx := x - sd.x
    let dy := y - sd.y
    let d2 := dx * dx + dy * dy
    match best with
    | none => bestSeedGo x y rest (some (sd, d2))
    | some p =>
      if d2 < p.2 then bestSeedGo x y rest (some (sd, d2))
      else bestSeedGo x y rest (some p)

/-- Nearest seed of a cell, if any seed exists. -/
def bestSeedFor (seeds : List Seed) (x y : ℤ) : Option Seed :=
  (bestSeedGo x y seeds none).map (fun p => p.1)

/-- The per-cell assignment loop of `generateWorld`.  The source always has at
least 6 seeds, so the empty-seed branch is unreachable (JS would fault on
`bestSeed.biome`); it is totalized with `fields`. -/
def generateWorldGrid (W H : ℕ) (allowedBiomes : List Biome) (r : WorldRand) :
    List (List Biome) :=
  let seeds := generateSeeds W H allowedBiomes r
  (List.range H).map (fun gy =>
    (List.range W).map (fun gx =>
      match bestSeedFor seeds (gx : ℤ) (gy : ℤ) with
      | some sd => sd.biome
      | none => Biome.fields))

/-- `generateWorld()` for arbitrary dimensions. -/
def generateWorld (W H : ℕ) (r : WorldRand) (fuel : ℕ) : Option World :=
  match generateBiomes r.nRoll r.paletteRolls fuel with
  | none => none
  | some allowedBiomes => some ⟨W, H, generateWorldGrid W H allowedBiomes r⟩

/-! ## Derived definitions used by the statements -/

/-- Iterated mutation: successive `applyMutation` calls with the given draw
records. -/
def mutateIter (rs : List MutRand) (t : Traits) : Traits :=
  rs.foldl (fun acc r => applyMutation r acc) t

/-- The clamp table of the specification: the seven per-trait ranges enforced
by `applyMutation`. -/
@[reducible] def clampTable (t : Traits) : Prop :=
  0.3 ≤ t.size ∧ t.size ≤ 3 ∧
  0.2 ≤ t.max_speed ∧ t.max_speed ≤ 4 ∧
  0 ≤ t.armor ∧ t.armor ≤ 5 ∧
  0.1 ≤ t.attack_damage ∧
  1 ≤ t.offspring_per_cycle ∧ t.offspring_per_cycle ≤ 5 ∧
  80 ≤ t.repro_cooldown ∧ t.repro_cooldown ≤ 500 ∧
  3 ≤ t.vision_radius ∧ t.vision_radius ≤ 20

/-- Energy upper-bound invariant over a creature list: every living creature
has `energy ≤ stomach_capacity`, and its capacity is at least the spawn
energy 50 (capacities are immutable in the reference code:
`stomach_capacity` is not a mutable trait, so it is 60 everywhere). -/
@[reducible] def energyCapList (cs : List Creature) : Prop :=
  ∀ c ∈ cs, c.alive = true →
    c.energy ≤ c.traits.stomach_capacity ∧ 50 ≤ c.traits.stomach_capacity

/-- Movement-mode containment for aquatic creatures: every aquatic creature
of the list sits on a Water tile. -/
@[reducible] def aquaticList (w : World) (cs : List Creature) : Prop :=
  ∀ c ∈ cs, c.movementMode = MovementMode.water → getBiome w c.x c.y = Biome.water

/-- Consistency of the stamped movement mode with the species table entry
found under the creature species id. -/
@[reducible] def speciesOk (sl : List Species) (c : Creature) : Prop :=
  ∀ sp, sl.get? c.speciesId = some sp → sp.movementMode = c.movementMode

/-- `speciesOk` for every creature of a list. -/
@[reducible] def speciesOkList (sl : List Species) (cs : List Creature) : Prop :=
  ∀ c ∈ cs, speciesOk sl c

/-- Number of loop iterations a `runPass` call performs before its index
reaches the (live) list length; instrumentation used to state which indices a
completed pass visited. -/
def passCount (rnd : ℕ → StepRand) : ℕ → ℕ → SimState → ℕ
  | 0, _, _ => 0
  | fuel + 1, i, s =>
    if i < s.creatures.length then passCount rnd fuel (i + 1) (passTick rnd i s) + 1
    else 0

/-- Bounds stating that every roll of a `WorldRand` lies in `[0,1)`, the range
of `Math.random()`. -/
@[reducible] def validWorldRolls (r : WorldRand) : Prop :=
  (0 ≤ r.nRoll ∧ r.nRoll < 1) ∧
  (∀ k, 0 ≤ r.paletteRolls k ∧ r.paletteRolls k < 1) ∧
  (∀ k, 0 ≤ r.seedBiomeRolls k ∧ r.seedBiomeRolls k < 1) ∧
  (∀ k, 0 ≤ r.rerollPickRolls k ∧ r.rerollPickRolls k < 1)

/-! ## Concrete inputs used in counterexamples and witnesses -/

/-- Inert mutation draws: no boolean flip, no second perturbation, a zero
delta on `size`. -/
def quietMutRand : MutRand :=
  ⟨0.9, BoolKey.has_venom, 0.9, NumKey.size, 0.5, NumKey.size, 0.5⟩

/-- Offspring draws: female child, traits taken from parent b on boolean
picks, no mutation. -/
def quietOffspringRand : OffspringRand :=
  ⟨0.9, ⟨0.9, 0.9, 0.9, 0.9⟩, 0.9, quietMutRand⟩

/-- A 2 by 2 world whose upper-left tile is Water. -/
def cornerWaterWorld : World :=
  ⟨2, 2, [[Biome.water, Biome.fields], [Biome.fields, Biome.fields]]⟩

/-- Attacker of the energy-bound counterexample: attack damage 5, bite force
1, no venom. -/
def atkA : Creature :=
  ⟨0, "", MovementMode.terrestrial, Diet.carnivore, false, 0, 0, Sex.M, 0, 50,
    { createBaselineTraits with attack_damage := 5 }, true⟩

/-- Its target: armor 2, no shell, energy 10 (one hit is fatal). -/
def atkT : Creature :=
  ⟨1, "", MovementMode.terrestrial, Diet.herbivore, false, 1, 0, Sex.F, 0, 10,
    { createBaselineTraits with armor := 2 }, true⟩

/-- Terrestrial creature standing at (0, 1), next to the water corner. -/
def shoreCreature : Creature :=
  ⟨0, "", MovementMode.terrestrial, Diet.herbivore, false, 0, 1, Sex.M, 0, 50,
    createBaselineTraits, true⟩

/-- State for the movement-containment counterexample. -/
def shoreState : SimState := ⟨cornerWaterWorld, [], [shoreCreature], 0⟩

/-- Draws that force a move in direction 5 (up-left, off the grid). -/
def shoreRand : StepRand := ⟨0, 5/8, 0.9, fun _ => quietOffspringRand⟩

/-- Aquatic creature on the water tile of the same world. -/
def pondCreature : Creature :=
  ⟨0, "", MovementMode.water, Diet.herbivore, false, 0, 0, Sex.M, 0, 50,
    createBaselineTraits, true⟩

/-- State for the movement-containment witness. -/
def pondState : SimState := ⟨cornerWaterWorld, [], [pondCreature], 0⟩

/-- Draws that attempt a move to the right (a Fields tile, rejected for an
aquatic creature). -/
def pondRand : StepRand := ⟨0, 0, 0.9, fun _ => quietOffspringRand⟩

/-- A dead creature left in the registry. -/
def lingeringDead : Creature :=
  ⟨0, "", MovementMode.terrestrial, Diet.herbivore, false, 0, 0, Sex.M, 1, -1,
    createBaselineTraits, false⟩

/-- State after one simulated step (year 0.01) holding only the dead body. -/
def morgueState : SimState :=
  ⟨⟨1, 1, [[Biome.fields]]⟩, [], [lingeringDead], 0.01⟩

/-- Step draws that keep every optional behavior quiet. -/
def quietStepRand : ℕ → StepRand :=
  fun _ => ⟨0.9, 0, 0.9, fun _ => quietOffspringRand⟩

/-- A 2 by 1 world: a Woods tile next to a Desert tile. -/
def woodsDesertWorld : World := ⟨2, 1, [[Biome.woods, Biome.desert]]⟩

/-- Herbivore on the Woods tile, about to move onto the Desert tile. -/
def grazerCreature : Creature :=
  ⟨0, "", MovementMode.terrestrial, Diet.herbivore, false, 0, 0, Sex.M, 0, 50,
    createBaselineTraits, true⟩

/-- State for the feeding-biome counterexample. -/
def grazerState : SimState := ⟨woodsDesertWorld, [], [grazerCreature], 0⟩

/-- Draws that force a move in direction 0 (one tile to the right). -/
def grazerRand : StepRand := ⟨0, 0, 0.9, fun _ => quietOffspringRand⟩

/-- An all-Fields 2 by 2 world. -/
def plainWorld : World :=
  ⟨2, 2, [[Biome.fields, Biome.fields], [Biome.fields, Biome.fields]]⟩

/-- The single species of the reproduction scenarios. -/
def loneSpecies : Species := ⟨0, "", MovementMode.terrestrial, Diet.herbivore, false⟩

/-- Reproduction-ready parent: age 199 (200 after aging, one cooldown
multiple), high energy. -/
def packParent : Creature :=
  ⟨0, "", MovementMode.terrestrial, Diet.herbivore, false, 0, 0, Sex.M, 199, 59,
    createBaselineTraits, true⟩

/-- Its adjacent mate. -/
def packMate : Creature :=
  ⟨0, "", MovementMode.terrestrial, Diet.herbivore, false, 1, 0, Sex.F, 0, 59,
    createBaselineTraits, true⟩

/-- State for the same-step-offspring counterexample. -/
def packState : SimState := ⟨plainWorld, [loneSpecies], [packParent, packMate], 0.01⟩

/-- Initiating parent of the reproduction witness: age 200 is a multiple of
the cooldown 200. -/
def suitorCreature : Creature :=
  ⟨0, "", MovementMode.terrestrial, Diet.herbivore, false, 0, 0, Sex.M, 200, 40,
    createBaselineTraits, true⟩

/-- Its mate on a diagonal neighbor tile. -/
def suitedCreature : Creature :=
  ⟨0, "", MovementMode.terrestrial, Diet.herbivore, false, 1, 1, Sex.F, 0, 31,
    createBaselineTraits, true⟩

/-- State for the reproduction-contract theorem witness. -/
def suitorState : SimState := ⟨plainWorld, [loneSpecies], [suitorCreature, suitedCreature], 0⟩

/-- Attacker of the attack-resolution witness scenario: attack damage 5, bite
force 1, no venom. -/
def duelAtk : Creature :=
  ⟨0, "", MovementMode.terrestrial, Diet.carnivore, false, 0, 0, Sex.M, 0, 50,
    { createBaselineTraits with attack_damage := 5 }, true⟩

/-- Its target: armor 2, shell hardness 0, enough energy to survive. -/
def duelTgt : Creature :=
  ⟨1, "", MovementMode.terrestrial, Diet.herbivore, false, 1, 0, Sex.F, 0, 30,
    { createBaselineTraits with armor := 2 }, true⟩

/-- Rolls of the world-generation witness: palette draws pick Desert. -/
def calmWorldRand : WorldRand :=
  ⟨0, fun _ => 1/6, fun _ => 0, fun _ => 0, fun _ => 0, fun _ => 0.7, fun _ => 0⟩

/-! ## Theorems

The Batteries rational operations are restored to semireducible so that the
kernel can evaluate concrete simulation runs. -/

attribute [local semireducible] Rat.add Rat.sub Rat.mul Rat.inv Rat.ofScientific

/-- An in-range defaulted read is a member of the list. -/
theorem getD_mem_of_lt {α : Type} [Inhabited α] (l : List α) (i : ℕ)
    (h : i < l.length) : l.getD i default ∈ l := by
  rw [List.getD_eq_getElem?_getD, List.getElem?_eq_getElem h]
  exact List.getElem_mem h

/-- An option known (by evaluation) to be `isSome` equals `some` of its
defaulted unwrap. -/
theorem eq_some_getD {α : Type} (o : Option α) (d : α) (h : o.isSome = true) :
    o = some (o.getD d) := by
  cases o with
  | none => simp at h
  | some v => rfl

/-! ### C7: attack resolution -/

/-- C7: attack resolution computes
`damage = max(0, attack_damage + bite_force - (armor + shell_hardness * 2))`;
when the damage is zero nothing changes; otherwise the target loses
`damage * 5` energy, spines with positive `spine_damage` retaliate for
`spine_damage * 3`, venom (when present with positive power) costs the target
a further `venom_power * 2`, and a target left with energy at most 0 dies
while the attacker eats for `min(stomach_capacity, energy + 30 *
food_efficiency)`. -/
theorem resolveAttack_contract (a t : Creature) (dmg e1 aE e2 : ℚ)
    (hdmg : dmg = max 0 (a.traits.attack_damage + a.traits.bite_force -
      (t.traits.armor + t.traits.shell_hardness * 2)))
    (he1 : e1 = t.energy - dmg * 5)
    (haE : aE = if t.traits.spine_damage > 0 then
      a.energy - t.traits.spine_damage * 3 else a.energy)
    (he2 : e2 = if a.traits.has_venom = true ∧ a.traits.venom_power > 0 then
      e1 - a.traits.venom_power * 2 else e1) :
    (dmg ≤ 0 → resolveAttack a t = (a, t)) ∧
    (0 < dmg → e2 ≤ 0 → resolveAttack a t =
      ({ a with energy := (min a.traits.stomach_capacity
          (aE + 30 * a.traits.food_efficiency)) },
       { t with energy := e2, alive := false })) ∧
    (0 < dmg → 0 < e2 → resolveAttack a t =
      ({ a with energy := aE }, { t with energy := e2 })) := by
  subst hdmg he1 haE he2
  unfold resolveAttack
  refine ⟨fun h => ?_, fun h1 h2 => ?_, fun h1 h2 => ?_⟩
  · rw [if_pos h]
  · rw [if_neg (not_le.mpr h1)]
    dsimp only
    rw [if_pos h2]
  · rw [if_neg (not_le.mpr h1)]
    dsimp only
    rw [if_neg (not_le.mpr h2)]

/-- Witness for C7 at the scenario of the claim: attack damage 5, bite force
1, no venom, against armor 2 and shell hardness 0 gives damage 4, and the
target (energy 30) ends at energy 10, a loss of 20. -/
theorem resolveAttack_contract_witness :
    resolveAttack duelAtk duelTgt =
      ({ duelAtk with energy := 50 }, { duelTgt with energy := 10 }) ∧
    duelTgt.energy - 10 = 20 := by
  constructor
  · have h := (resolveAttack_contract duelAtk duelTgt 4 10 50 10
      (by decide) (by decide) (by decide) (by decide)).2.2
      (by norm_num) (by norm_num)
    exact h
  · decide

/-! ### C10: out-of-bounds terrain reads and movement -/

/-- C10: the terrain lookup totalizes out-of-bounds coordinates to the Fields
biome; consequently a terrestrial creature accepts an off-grid destination
(the coordinates are then clamped back to the grid), while an aquatic
creature never accepts an off-grid destination and stays in place. -/
theorem getBiome_oob_fields :
    (∀ (w : World) (x y : ℤ),
      (y < 0 ∨ (w.height : ℤ) ≤ y ∨ x < 0 ∨ (w.width : ℤ) ≤ x) →
        getBiome w x y = Biome.fields) ∧
    (∀ (w : World) (x y : ℤ) (dir : ℕ),
      ((applyDir dir x y).2 < 0 ∨ (w.height : ℤ) ≤ (applyDir dir x y).2 ∨
        (applyDir dir x y).1 < 0 ∨ (w.width : ℤ) ≤ (applyDir dir x y).1) →
      moveStep w MovementMode.terrestrial x y dir =
        (clampCoord w.width (applyDir dir x y).1,
         clampCoord w.height (applyDir dir x y).2) ∧
      moveStep w MovementMode.water x y dir = (x, y)) := by
  constructor
  · intro w x y h
    unfold getBiome
    rw [if_pos h]
  · intro w x y dir h
    have hb : getBiome w (applyDir dir x y).1 (applyDir dir x y).2 = Biome.fields := by
      unfold getBiome
      rw [if_pos h]
    constructor
    · unfold moveStep
      dsimp only
      rw [hb]
      rw [if_neg (by decide : ¬ MovementMode.terrestrial = MovementMode.water)]
      rw [if_pos (by decide : Biome.fields ≠ Biome.water)]
    · unfold moveStep
      dsimp only
      rw [hb]
      rw [if_pos rfl]
      rw [if_neg (by decide : ¬ Biome.fields = Biome.water)]

/-- Witness for C10: from (0, 1) in the corner-water world, direction 5 leads
off the grid; the terrestrial move is accepted and clamped to (0, 0), the
aquatic one is rejected. -/
theorem getBiome_oob_fields_witness :
    getBiome cornerWaterWorld (-1) 0 = Biome.fields ∧
    moveStep cornerWaterWorld MovementMode.terrestrial 0 1 5 = (0, 0) ∧
    moveStep cornerWaterWorld MovementMode.water 0 1 5 = (0, 1) := by
  refine ⟨getBiome_oob_fields.1 cornerWaterWorld (-1) 0 (by decide), ?_, ?_⟩
  · have h := (getBiome_oob_fields.2 cornerWaterWorld 0 1 5 (by decide)).1
    rw [h]
    decide
  · exact (getBiome_oob_fields.2 cornerWaterWorld 0 1 5 (by decide)).2

/-! ### C8: mutation clamps -/

/-- A boolean flip leaves every numeric trait unchanged. -/
theorem flipBool_clampTable {t : Traits} (k : BoolKey) (h : clampTable t) :
    clampTable (flipBool t k) := by
  cases k <;> exact h

/-- One numeric perturbation keeps the clamp table satisfied: the seven
clamped keys are re-clamped into range, every other key leaves the seven
fields unchanged. -/
theorem mutateOne_clampTable (t : Traits) (k : NumKey) (d : ℚ)
    (h : clampTable t) : clampTable (mutateOne t k d) := by
  obtain ⟨h1, h2, h3, h4, h5, h6, h7, h8, h9, h10, h11, h12, h13⟩ := h
  cases k
  case size =>
    exact ⟨le_max_left _ _, max_le (by norm_num) (min_le_right _ _),
      h3, h4, h5, h6, h7, h8, h9, h10, h11, h12, h13⟩
  case max_speed =>
    exact ⟨h1, h2, le_max_left _ _, max_le (by norm_num) (min_le_right _ _),
      h5, h6, h7, h8, h9, h10, h11, h12, h13⟩
  case armor =>
    exact ⟨h1, h2, h3, h4, le_max_left _ _, max_le (by norm_num) (min_le_right _ _),
      h7, h8, h9, h10, h11, h12, h13⟩
  case attack_damage =>
    exact ⟨h1, h2, h3, h4, h5, h6, le_max_left _ _,
      h8, h9, h10, h11, h12, h13⟩
  case offspring_per_cycle =>
    exact ⟨h1, h2, h3, h4, h5, h6, h7, le_max_left _ _,
      max_le (by norm_num) (min_le_right _ _), h10, h11, h12, h13⟩
  case repro_cooldown =>
    exact ⟨h1, h2, h3, h4, h5, h6, h7, h8, h9, le_max_left _ _,
      max_le (by norm_num) (min_le_right _ _), h12, h13⟩
  case vision_radius =>
    exact ⟨h1, h2, h3, h4, h5, h6, h7, h8, h9, h10, h11, le_max_left _ _,
      max_le (by norm_num) (min_le_right _ _)⟩
  all_goals exact ⟨h1, h2, h3, h4, h5, h6, h7, h8, h9, h10, h11, h12, h13⟩

/-- One whole `applyMutation` call preserves the clamp table. -/
theorem applyMutation_clampTable (r : MutRand) (t : Traits) (h : clampTable t) :
    clampTable (applyMutation r t) := by
  have hflip : clampTable (if r.flipRoll < 0.05 then flipBool t r.flipKey else t) := by
    split
    · exact flipBool_clampTable _ h
    · exact h
  have hone := mutateOne_clampTable _ r.key1 r.delta1Roll hflip
  have htwo : clampTable (if r.extraRoll < 0.3 then
      mutateOne (mutateOne (if r.flipRoll < 0.05 then flipBool t r.flipKey else t)
        r.key1 r.delta1Roll) r.key2 r.delta2Roll
      else mutateOne (if r.flipRoll < 0.05 then flipBool t r.flipKey else t)
        r.key1 r.delta1Roll) := by
    split
    · exact mutateOne_clampTable _ r.key2 r.delta2Roll hone
    · exact hone
  exact htwo

/-- C8: any finite chain of `mutate` calls started from a genome satisfying
the clamp table ends in a genome satisfying the clamp table, for every
outcome of the random draws. -/
theorem mutateIter_clampTable (t : Traits) (rs : List MutRand)
    (h : clampTable t) : clampTable (mutateIter rs t) := by
  induction rs generalizing t with
  | nil => exact h
  | cons r rs ih => exact ih _ (applyMutation_clampTable r t h)

/-- Witness for C8: the baseline genome satisfies the table, and so does the
result of a mutation round on it. -/
theorem mutateIter_clampTable_witness :
    clampTable createBaselineTraits ∧
    clampTable (mutateIter [quietMutRand] createBaselineTraits) :=
  ⟨by decide, mutateIter_clampTable createBaselineTraits [quietMutRand] (by decide)⟩

/-! ### C1: energy bounds -/

/-- Half of a value below a nonnegative cap stays below the cap. -/
lemma half_le_of_le {e cap : ℚ} (h : e ≤ cap) (hc : 0 ≤ cap) : e * 0.5 ≤ cap := by
  have h05 : (0.5 : ℚ) = 1/2 := by norm_num
  rw [h05]
  linarith

/-- The feeding phase always leaves energy at or below the stomach capacity
(the clamp is unconditional). -/
lemma fed_energy_le (b : Biome) (c : Creature) :
    (fed b c).energy ≤ c.traits.stomach_capacity := by
  unfold fed
  dsimp only
  split
  · exact le_refl _
  · next h => exact not_lt.mp h

lemma fed_traits (b : Biome) (c : Creature) : (fed b c).traits = c.traits := rfl

lemma fed_alive (b : Biome) (c : Creature) : (fed b c).alive = c.alive := rfl

lemma moved_traits (w : World) (mr dr : ℚ) (c : Creature) :
    (moved w mr dr c).traits = c.traits := by
  unfold moved
  dsimp only
  split <;> rfl

lemma moved_alive (w : World) (mr dr : ℚ) (c : Creature) :
    (moved w mr dr c).alive = c.alive := by
  unfold moved
  dsimp only
  split <;> rfl

lemma moved_energy (w : World) (mr dr : ℚ) (c : Creature) :
    (moved w mr dr c).energy = c.energy := by
  unfold moved
  dsimp only
  split <;> rfl

lemma moved_speciesId (w : World) (mr dr : ℚ) (c : Creature) :
    (moved w mr dr c).speciesId = c.speciesId := by
  unfold moved
  dsimp only
  split <;> rfl

lemma moved_movementMode (w : World) (mr dr : ℚ) (c : Creature) :
    (moved w mr dr c).movementMode = c.movementMode := by
  unfold moved
  dsimp only
  split <;> rfl

/-- Shape of an attack result: either both parties are unchanged, or only
energies (and the target liveness flag) were rewritten. -/
lemma resolveAttack_cases (a t : Creature) :
    resolveAttack a t = (a, t) ∨
    ∃ eA eT al, resolveAttack a t =
      ({ a with energy := eA }, { t with energy := eT, alive := al }) := by
  unfold resolveAttack
  dsimp only
  split
  · exact Or.inl rfl
  · split <;> split <;> exact Or.inr ⟨_, _, _, rfl⟩

/-- Field preservation of `resolveAttack`: traits, coordinates, species and
movement mode of both parties are untouched, and the attacker stays alive. -/
lemma resolveAttack_fields (a t : Creature) :
    ((resolveAttack a t).1.traits = a.traits ∧ (resolveAttack a t).1.alive = a.alive ∧
     (resolveAttack a t).1.x = a.x ∧ (resolveAttack a t).1.y = a.y ∧
     (resolveAttack a t).1.movementMode = a.movementMode ∧
     (resolveAttack a t).1.speciesId = a.speciesId) ∧
    ((resolveAttack a t).2.traits = t.traits ∧
     (resolveAttack a t).2.x = t.x ∧ (resolveAttack a t).2.y = t.y ∧
     (resolveAttack a t).2.movementMode = t.movementMode ∧
     (resolveAttack a t).2.speciesId = t.speciesId) := by
  rcases resolveAttack_cases a t with h | ⟨eA, eT, al, h⟩ <;> rw [h] <;>
    exact ⟨⟨rfl, rfl, rfl, rfl, rfl, rfl⟩, rfl, rfl, rfl, rfl, rfl⟩

/-- Attack resolution never pushes the attacker energy above its capacity. -/
lemma resolveAttack_fst_energy_le (a t : Creature)
    (h1 : a.energy ≤ a.traits.stomach_capacity) :
    (resolveAttack a t).1.energy ≤ a.traits.stomach_capacity := by
  unfold resolveAttack
  dsimp only
  by_cases hd : max 0 (a.traits.attack_damage + a.traits.bite_force -
      (t.traits.armor + t.traits.shell_hardness * 2)) ≤ 0
  · rw [if_pos hd]
    exact h1
  · rw [if_neg hd]
    have haE : (if t.traits.spine_damage > 0 then
        a.energy - t.traits.spine_damage * 3 else a.energy) ≤
        a.traits.stomach_capacity := by
      split
      · next hs => linarith
      · exact h1
    split <;> split
    · exact min_le_left _ _
    · exact haE
    · exact min_le_left _ _
    · exact haE

/-- Attack resolution never pushes the target energy above its capacity. -/
lemma resolveAttack_snd_energy_le (a t : Creature)
    (h2 : t.energy ≤ t.traits.stomach_capacity) :
    (resolveAttack a t).2.energy ≤ t.traits.stomach_capacity := by
  unfold resolveAttack
  dsimp only
  by_cases hd : max 0 (a.traits.attack_damage + a.traits.bite_force -
      (t.traits.armor + t.traits.shell_hardness * 2)) ≤ 0
  · rw [if_pos hd]
    exact h2
  · rw [if_neg hd]
    have hd0 : (0:ℚ) < max 0 (a.traits.attack_damage + a.traits.bite_force -
        (t.traits.armor + t.traits.shell_hardness * 2)) := not_le.mp hd
    split
    · next hv =>
      have hb : t.energy - max 0 (a.traits.attack_damage + a.traits.bite_force -
          (t.traits.armor + t.traits.shell_hardness * 2)) * 5 -
          a.traits.venom_power * 2 ≤ t.traits.stomach_capacity := by
        linarith [hv.2]
      split
      · exact hb
      · exact hb
    · next hv =>
      have hb : t.energy - max 0 (a.traits.attack_damage + a.traits.bite_force -
          (t.traits.armor + t.traits.shell_hardness * 2)) * 5 ≤
          t.traits.stomach_capacity := by
        linarith
      split
      · exact hb
      · exact hb

/-- `List.getD` through `List.get?`. -/
lemma getD_eq_get?_getD {α : Type} (l : List α) (n : ℕ) (d : α) :
    l.getD n d = (l.get? n).getD d := by
  rw [List.getD_eq_getElem?_getD, List.get?_eq_getElem?]

/-- Writing an element that respects the energy bound preserves the list
invariant. -/
lemma energyCapList_set {cs : List Creature} (h : energyCapList cs) {c' : Creature}
    (hc : c'.alive = true →
      c'.energy ≤ c'.traits.stomach_capacity ∧ 50 ≤ c'.traits.stomach_capacity)
    (i : ℕ) : energyCapList (cs.set i c') := by
  intro c hm halive
  rcases List.mem_or_eq_of_mem_set hm with h1 | rfl
  · exact h c h1 halive
  · exact hc halive

/-- Halving one entry preserves the energy invariant. -/
lemma energyCapList_halve {cs : List Creature} (h : energyCapList cs) (i : ℕ) :
    energyCapList (halveEnergyAt cs i) := by
  unfold halveEnergyAt
  cases hg : cs.get? i with
  | none => exact h
  | some c0 =>
    apply energyCapList_set h ?_ i
    intro halive
    have h0 := h c0 (List.get?_mem hg) halive
    exact ⟨half_le_of_le h0.1 (by linarith [h0.2]), h0.2⟩

/-- Specification of the `findNearbyCreature` scan: a returned index is at or
after the start index, differs from the creature index, and addresses a
living creature of the list. -/
lemma findNearbyFrom_spec (c : Creature) (selfIdx : ℕ) (r2 : ℤ) :
    ∀ (l : List Creature) (j0 j : ℕ), findNearbyFrom c selfIdx r2 l j0 = some j →
      j0 ≤ j ∧ j ≠ selfIdx ∧ ∃ o, l.get? (j - j0) = some o ∧ o.alive = true
  | [], j0, j => by
    intro h
    simp [findNearbyFrom] at h
  | o :: rest, j0, j => by
    intro h
    rw [findNearbyFrom] at h
    split at h
    · next hc =>
      injection h with h
      subst h
      exact ⟨le_refl _, hc.2.1, o, by simp, hc.1⟩
    · next hc =>
      obtain ⟨hle, hne, o', ho', halive⟩ := findNearbyFrom_spec c selfIdx r2 rest (j0+1) j h
      refine ⟨by omega, hne, o', ?_, halive⟩
      have hj : j - j0 = (j - (j0+1)) + 1 := by omega
      rw [hj]
      simpa using ho'

/-- Specification of the mate scan: a returned index addresses a living
creature of the same species and opposite sex whose energy is at least half
its capacity, and differs from the creature index. -/
lemma findMateFrom_spec (c : Creature) (selfIdx : ℕ) :
    ∀ (l : List Creature) (j0 j : ℕ), findMateFrom c selfIdx l j0 = some j →
      j0 ≤ j ∧ j ≠ selfIdx ∧ ∃ o, l.get? (j - j0) = some o ∧ o.alive = true ∧
        o.speciesId = c.speciesId ∧ o.sex ≠ c.sex ∧
        ¬(o.energy < o.traits.stomach_capacity * 0.5)
  | [], j0, j => by
    intro h
    simp [findMateFrom] at h
  | o :: rest, j0, j => by
    intro h
    rw [findMateFrom] at h
    split at h
    · next hc =>
      injection h with h
      subst h
      exact ⟨le_refl _, hc.2.1, o, by simp, hc.1, hc.2.2.1, hc.2.2.2.1, hc.2.2.2.2.2⟩
    · next hc =>
      obtain ⟨hle, hne, o', ho', hrest⟩ := findMateFrom_spec c selfIdx rest (j0+1) j h
      refine ⟨by omega, hne, o', ?_, hrest⟩
      have hj : j - j0 = (j - (j0+1)) + 1 := by omega
      rw [hj]
      simpa using ho'

/-- `mixTraits` averages the stomach capacities. -/
lemma mixTraits_capacity (r : MixRand) (a b : Traits) :
    (mixTraits r a b).stomach_capacity =
      (a.stomach_capacity + b.stomach_capacity) / 2 := rfl

lemma setNum_capacity (t : Traits) (k : NumKey) (v : ℚ) :
    (setNum t k v).stomach_capacity = t.stomach_capacity := by
  cases k <;> rfl

lemma flipBool_capacity (t : Traits) (k : BoolKey) :
    (flipBool t k).stomach_capacity = t.stomach_capacity := by
  cases k <;> rfl

lemma mutateOne_capacity (t : Traits) (k : NumKey) (d : ℚ) :
    (mutateOne t k d).stomach_capacity = t.stomach_capacity :=
  setNum_capacity t k _

lemma recomputeMetabolism_capacity (t : Traits) :
    (recomputeMetabolism t).stomach_capacity = t.stomach_capacity := rfl

/-- Mutation never touches the stomach capacity (it is not a mutable trait). -/
lemma applyMutation_capacity (r : MutRand) (t : Traits) :
    (applyMutation r t).stomach_capacity = t.stomach_capacity := by
  unfold applyMutation
  dsimp only
  split
  · rw [recomputeMetabolism_capacity, mutateOne_capacity, mutateOne_capacity]
    split
    · rw [flipBool_capacity]
    · rfl
  · rw [recomputeMetabolism_capacity, mutateOne_capacity]
    split
    · rw [flipBool_capacity]
    · rfl

/-- Reproduction preserves the energy invariant: offspring spawn with energy
50 and a capacity averaging two capacities that are at least 50, and the
parent halving keeps energies below the caps. -/
lemma energyCapList_repro (rnd : ℕ → OffspringRand) (i : ℕ) (s : SimState)
    (h : energyCapList s.creatures) :
    energyCapList (attemptReproductionAt rnd i s).creatures := by
  unfold attemptReproductionAt
  cases hg : s.creatures.get? i with
  | none => exact h
  | some c =>
    dsimp only
    split
    · exact h
    next hAlive =>
    split
    · exact h
    next hGate =>
    cases hm : findMate s.creatures i with
    | none => exact h
    | some m =>
      dsimp only
      apply energyCapList_halve
      apply energyCapList_halve
      intro x hx hxalive
      rcases List.mem_append.mp hx with hxo | hxk
      · exact h x hxo hxalive
      · obtain ⟨k, hk, rfl⟩ := List.mem_map.mp hxk
        have hcAlive : c.alive = true := by
          cases hca : c.alive
          · exact absurd hca hAlive
          · rfl
        have hcapc : 50 ≤ c.traits.stomach_capacity :=
          (h c (List.get?_mem hg) hcAlive).2
        obtain ⟨-, -, o, ho, hoalive, -⟩ :=
          findMateFrom_spec (s.creatures.getD i default) i s.creatures 0 m hm
        rw [Nat.sub_zero] at ho
        have hmate : s.creatures.getD m default = o := by
          rw [getD_eq_get?_getD, ho]
          rfl
        have hcapm : 50 ≤ (s.creatures.getD m default).traits.stomach_capacity := by
          rw [hmate]
          exact (h o (List.get?_mem ho) hoalive).2
        have hcap : 50 ≤ (if (rnd k).mutRoll < 0.4 then
            applyMutation (rnd k).mutation
              (mixTraits (rnd k).mix c.traits (s.creatures.getD m default).traits)
            else mixTraits (rnd k).mix c.traits
              (s.creatures.getD m default).traits).stomach_capacity := by
          split
          · rw [applyMutation_capacity, mixTraits_capacity]
            linarith
          · rw [mixTraits_capacity]
            linarith
        exact ⟨le_trans (le_of_eq rfl) hcap, hcap⟩

/-- Predation preserves the energy invariant. -/
lemma energyCapList_pred (ar : ℚ) (i : ℕ) (s : SimState)
    (h : energyCapList s.creatures) :
    energyCapList (predationPhase ar i s).creatures := by
  unfold predationPhase
  dsimp only
  split
  case isFalse => exact h
  case isTrue hroll =>
    cases hf : findNearbyCreature s.creatures i 1 with
    | none => exact h
    | some j =>
      dsimp only
      split
      case isFalse => exact h
      case isTrue hcond =>
        split
        case isFalse => exact h
        case isTrue hdiet =>
          have htl : j < s.creatures.length := by
            by_contra hj
            rw [List.getD_eq_default _ _ (not_lt.mp hj)] at hcond
            exact absurd hcond.1 (by decide)
          have htmem : s.creatures.getD j default ∈ s.creatures :=
            getD_mem_of_lt _ _ htl
          have hbt := h _ htmem hcond.1
          apply energyCapList_set
          apply energyCapList_set h
          · intro h1alive
            have haAlive : (s.creatures.getD i default).alive = true := by
              rw [← (resolveAttack_fields (s.creatures.getD i default)
                (s.creatures.getD j default)).1.2.1]
              exact h1alive
            have himem : s.creatures.getD i default ∈ s.creatures := by
              by_cases hi : i < s.creatures.length
              · exact getD_mem_of_lt _ _ hi
              · rw [List.getD_eq_default _ _ (not_lt.mp hi)] at haAlive
                exact absurd haAlive (by decide)
            have hba := h _ himem haAlive
            constructor
            · rw [(resolveAttack_fields _ _).1.1]
              exact resolveAttack_fst_energy_le _ _ hba.1
            · rw [(resolveAttack_fields _ _).1.1]
              exact hba.2
          · intro h2alive
            constructor
            · rw [(resolveAttack_fields _ _).2.1]
              exact resolveAttack_snd_energy_le _ _ hbt.1
            · rw [(resolveAttack_fields _ _).2.1]
              exact hbt.2

/-- One creature tick preserves the energy invariant. -/
lemma energyCapList_step (r : StepRand) (i : ℕ) (s : SimState)
    (h : energyCapList s.creatures) :
    energyCapList (stepCreatureAt r i s).creatures := by
  unfold stepCreatureAt
  cases hg : s.creatures.get? i with
  | none => exact h
  | some c0 =>
    dsimp only
    split
    · exact h
    next hAlive =>
    split
    · apply energyCapList_set h
      intro hda
      exact absurd hda Bool.false_ne_true
    next hDeath =>
      have hc0 : c0.alive = true := by
        cases hca : c0.alive
        · exact absurd hca hAlive
        · rfl
      have hcap0 := (h c0 (List.get?_mem hg) hc0).2
      have hs1 : energyCapList ((setC s i
          (fed (getBiome s.world (regenerated (agedHungered c0)).x
              (regenerated (agedHungered c0)).y)
            (moved s.world r.moveRoll r.dirRoll
              (regenerated (agedHungered c0))))).creatures) := by
        apply energyCapList_set h
        intro h4alive
        constructor
        · rw [fed_traits, moved_traits]
          exact le_trans (fed_energy_le _ _)
            (le_of_eq (by rw [moved_traits]))
        · rw [fed_traits, moved_traits]
          exact hcap0
      split
      · exact energyCapList_repro _ _ _ (energyCapList_pred _ _ _ hs1)
      · exact energyCapList_pred _ _ _ hs1

/-- C1 (amended): the upper energy bound is an invariant of the tick engine
and of attack resolution — after every tick and every attack, every living
creature satisfies `energy ≤ stomach_capacity` (granted the standing fact
that capacities are at least the spawn energy 50, which holds in every
reachable state since `stomach_capacity` is not mutable).  The lower bound
`0 ≤ energy` of the original claim is refuted separately. -/
theorem energy_upper_bound_invariant :
    (∀ (r : StepRand) (i : ℕ) (s : SimState),
      energyCapList s.creatures →
      energyCapList (stepCreatureAt r i s).creatures) ∧
    (∀ a t : Creature,
      a.energy ≤ a.traits.stomach_capacity →
      t.energy ≤ t.traits.stomach_capacity →
      (resolveAttack a t).1.energy ≤ a.traits.stomach_capacity ∧
      (resolveAttack a t).2.energy ≤ t.traits.stomach_capacity) :=
  ⟨fun r i s h => energyCapList_step r i s h,
   fun a t h1 h2 =>
    ⟨resolveAttack_fst_energy_le a t h1, resolveAttack_snd_energy_le a t h2⟩⟩

/-- Counterexample to C1 as stated: one attack (damage 4 against energy 10)
leaves the dead target with energy -10, violating `0 ≤ energy`. -/
theorem energy_lower_bound_cex :
    (resolveAttack atkA atkT).2.energy = -10 ∧
    (resolveAttack atkA atkT).2.alive = false ∧
    ¬(0 ≤ (resolveAttack atkA atkT).2.energy) := by
  decide

/-- Witness for the amended C1 at a concrete attack. -/
theorem energy_upper_bound_invariant_witness :
    (resolveAttack atkA atkT).1.energy ≤ atkA.traits.stomach_capacity ∧
    (resolveAttack atkA atkT).2.energy ≤ atkT.traits.stomach_capacity :=
  energy_upper_bound_invariant.2 atkA atkT (by decide) (by decide)

/-! ### C2: movement-mode containment -/

lemma clampCoord_eq_self {b : ℕ} {v : ℤ} (h1 : 0 ≤ v) (h2 : v < (b : ℤ)) :
    clampCoord b v = v := by
  unfold clampCoord
  omega

lemma fed_x (b : Biome) (c : Creature) : (fed b c).x = c.x := rfl

lemma fed_y (b : Biome) (c : Creature) : (fed b c).y = c.y := rfl

lemma fed_speciesId (b : Biome) (c : Creature) : (fed b c).speciesId = c.speciesId := rfl

lemma fed_movementMode (b : Biome) (c : Creature) :
    (fed b c).movementMode = c.movementMode := rfl

/-- An aquatic creature on a Water tile is still on a Water tile after the
movement phase: an accepted destination is itself a Water tile inside the
grid (so the clamp is the identity on it), and a rejected move keeps the
position. -/
lemma moved_aquatic (w : World) (mr dr : ℚ) (c : Creature)
    (hm : c.movementMode = MovementMode.water)
    (h : getBiome w c.x c.y = Biome.water) :
    getBiome w (moved w mr dr c).x (moved w mr dr c).y = Biome.water := by
  unfold moved
  dsimp only
  split
  · unfold moveStep
    dsimp only
    rw [hm, if_pos rfl]
    split
    · next hnb =>
      have hib : ¬((applyDir (⌊dr * 8⌋).toNat c.x c.y).2 < 0 ∨
          (w.height : ℤ) ≤ (applyDir (⌊dr * 8⌋).toNat c.x c.y).2 ∨
          (applyDir (⌊dr * 8⌋).toNat c.x c.y).1 < 0 ∨
          (w.width : ℤ) ≤ (applyDir (⌊dr * 8⌋).toNat c.x c.y).1) := by
        intro hob
        unfold getBiome at hnb
        rw [if_pos hob] at hnb
        exact absurd hnb (by decide)
      push_neg at hib
      obtain ⟨hy0, hyH, hx0, hxW⟩ := hib
      dsimp only
      rw [clampCoord_eq_self hx0 hxW, clampCoord_eq_self hy0 hyH]
      exact hnb
    · exact h
  · exact h

/-- Writing an element that satisfies containment preserves the list
invariant. -/
lemma aquaticList_set {w : World} {cs : List Creature} (h : aquaticList w cs)
    {c' : Creature}
    (hc : c'.movementMode = MovementMode.water → getBiome w c'.x c'.y = Biome.water)
    (i : ℕ) : aquaticList w (cs.set i c') := by
  intro c hm hmode
  rcases List.mem_or_eq_of_mem_set hm with h1 | rfl
  · exact h c h1 hmode
  · exact hc hmode

lemma aquaticList_halve {w : World} {cs : List Creature} (h : aquaticList w cs)
    (i : ℕ) : aquaticList w (halveEnergyAt cs i) := by
  unfold halveEnergyAt
  cases hg : cs.get? i with
  | none => exact h
  | some c0 =>
    apply aquaticList_set h ?_ i
    intro hmode
    exact h c0 (List.get?_mem hg) hmode

/-- Predation moves nobody, so containment is preserved. -/
lemma aquaticList_pred (ar : ℚ) (i : ℕ) (s : SimState) {w : World}
    (h : aquaticList w s.creatures) :
    aquaticList w (predationPhase ar i s).creatures := by
  unfold predationPhase
  dsimp only
  split
  case isFalse => exact h
  case isTrue hroll =>
    cases hf : findNearbyCreature s.creatures i 1 with
    | none => exact h
    | some j =>
      dsimp only
      split
      case isFalse => exact h
      case isTrue hcond =>
        split
        case isFalse => exact h
        case isTrue hdiet =>
          have htl : j < s.creatures.length := by
            by_contra hj
            rw [List.getD_eq_default _ _ (not_lt.mp hj)] at hcond
            exact absurd hcond.1 (by decide)
          apply aquaticList_set
          apply aquaticList_set h
          · intro hmode
            rw [(resolveAttack_fields _ _).1.2.2.1, (resolveAttack_fields _ _).1.2.2.2.1]
            rw [(resolveAttack_fields _ _).1.2.2.2.2.1] at hmode
            by_cases hi : i < s.creatures.length
            · exact h _ (getD_mem_of_lt _ _ hi) hmode
            · rw [List.getD_eq_default _ _ (not_lt.mp hi)] at hmode
              exact absurd hmode (by decide)
          · intro hmode
            rw [(resolveAttack_fields _ _).2.2.1, (resolveAttack_fields _ _).2.2.2.1]
            rw [(resolveAttack_fields _ _).2.2.2.2.1] at hmode
            exact h _ (getD_mem_of_lt _ _ htl) hmode

/-- Species consistency transfers along id- and mode-preserving rewrites. -/
lemma speciesOk_transfer {sl : List Species} {c c' : Creature}
    (hid : c'.speciesId = c.speciesId) (hmode : c'.movementMode = c.movementMode)
    (h : speciesOk sl c) : speciesOk sl c' := by
  intro sp hsp
  rw [hid] at hsp
  rw [hmode]
  exact h sp hsp

lemma speciesOkList_set {sl : List Species} {cs : List Creature}
    (h : speciesOkList sl cs) {c' : Creature} (hc : speciesOk sl c') (i : ℕ) :
    speciesOkList sl (cs.set i c') := by
  intro c hm
  rcases List.mem_or_eq_of_mem_set hm with h1 | rfl
  · exact h c h1
  · exact hc

/-- Predation rewrites energies only, so species consistency is preserved
(the attacked index is always in range, and so is the attacker index by
hypothesis). -/
lemma speciesOkList_pred (ar : ℚ) (i : ℕ) (s : SimState) {sl : List Species}
    (hi : i < s.creatures.length)
    (h : speciesOkList sl s.creatures) :
    speciesOkList sl (predationPhase ar i s).creatures := by
  unfold predationPhase
  dsimp only
  split
  case isFalse => exact h
  case isTrue hroll =>
    cases hf : findNearbyCreature s.creatures i 1 with
    | none => exact h
    | some j =>
      dsimp only
      split
      case isFalse => exact h
      case isTrue hcond =>
        split
        case isFalse => exact h
        case isTrue hdiet =>
          have htl : j < s.creatures.length := by
            by_contra hj
            rw [List.getD_eq_default _ _ (not_lt.mp hj)] at hcond
            exact absurd hcond.1 (by decide)
          apply speciesOkList_set
          apply speciesOkList_set h
          · exact speciesOk_transfer ((resolveAttack_fields _ _).1.2.2.2.2.2)
              ((resolveAttack_fields _ _).1.2.2.2.2.1)
              (h _ (getD_mem_of_lt _ _ hi))
          · exact speciesOk_transfer ((resolveAttack_fields _ _).2.2.2.2.2)
              ((resolveAttack_fields _ _).2.2.2.2.1)
              (h _ (getD_mem_of_lt _ _ htl))

lemma predationPhase_speciesList (ar : ℚ) (i : ℕ) (s : SimState) :
    (predationPhase ar i s).speciesList = s.speciesList := by
  unfold predationPhase setC
  dsimp only
  repeat' split
  all_goals rfl

lemma predationPhase_world (ar : ℚ) (i : ℕ) (s : SimState) :
    (predationPhase ar i s).world = s.world := by
  unfold predationPhase setC
  dsimp only
  repeat' split
  all_goals rfl

/-- Reproduction spawns offspring at the position of a parent whose movement
mode they share (through the species table), so containment is preserved. -/
lemma aquaticList_repro (rnd : ℕ → OffspringRand) (i : ℕ) (s : SimState)
    {w : World} (h : aquaticList w s.creatures)
    (hsp : speciesOkList s.speciesList s.creatures) :
    aquaticList w (attemptReproductionAt rnd i s).creatures := by
  unfold attemptReproductionAt
  cases hg : s.creatures.get? i with
  | none => exact h
  | some c =>
    dsimp only
    split
    · exact h
    next hAlive =>
    split
    · exact h
    next hGate =>
    cases hm : findMate s.creatures i with
    | none => exact h
    | some m =>
      dsimp only
      apply aquaticList_halve
      apply aquaticList_halve
      intro x hx hmode
      rcases List.mem_append.mp hx with hxo | hxk
      · exact h x hxo hmode
      · obtain ⟨k, hk, rfl⟩ := List.mem_map.mp hxk
        cases hspl : s.speciesList.get? c.speciesId with
        | none =>
          have hdft : s.speciesList.getD c.speciesId default = default := by
            rw [getD_eq_get?_getD, hspl]
            rfl
          rw [hdft] at hmode
          have hmode2 : MovementMode.terrestrial = MovementMode.water := hmode
          exact absurd hmode2 (by decide)
        | some sp0 =>
          have hgd : s.speciesList.getD c.speciesId default = sp0 := by
            rw [getD_eq_get?_getD, hspl]
            rfl
          rw [hgd] at hmode
          have hcmode : c.movementMode = MovementMode.water := by
            rw [← hsp c (List.get?_mem hg) sp0 hspl]
            exact hmode
          exact h c (List.get?_mem hg) hcmode

/-- C2 (amended): an Aquatic creature standing on a Water tile still stands
on a Water tile after any tick of the tick engine, for every outcome of the
random draws, provided the species table agrees with the stamped movement
modes (the original claim fails for Terrestrial creatures: see the
counterexample, where a clamped off-grid move puts one on Water). -/
theorem aquatic_containment_tick (r : StepRand) (i : ℕ) (s : SimState)
    (hsp : speciesOkList s.speciesList s.creatures)
    (ha : aquaticList s.world s.creatures) :
    aquaticList s.world (stepCreatureAt r i s).creatures := by
  unfold stepCreatureAt
  cases hg : s.creatures.get? i with
  | none => exact ha
  | some c0 =>
    dsimp only
    split
    · exact ha
    next hAlive =>
    split
    · apply aquaticList_set ha ?_ i
      intro hmode
      exact ha c0 (List.get?_mem hg) hmode
    next hDeath =>
      have hi : i < s.creatures.length := by
        by_contra hic
        have hnone := List.get?_eq_none.mpr (not_lt.mp hic)
        rw [hnone] at hg
        exact Option.noConfusion hg
      have hc0sp : speciesOk s.speciesList c0 := hsp c0 (List.get?_mem hg)
      have hc4aq : (fed (getBiome s.world (regenerated (agedHungered c0)).x
            (regenerated (agedHungered c0)).y)
          (moved s.world r.moveRoll r.dirRoll (regenerated (agedHungered c0)))).movementMode =
            MovementMode.water →
          getBiome s.world
            (fed (getBiome s.world (regenerated (agedHungered c0)).x
              (regenerated (agedHungered c0)).y)
            (moved s.world r.moveRoll r.dirRoll (regenerated (agedHungered c0)))).x
            (fed (getBiome s.world (regenerated (agedHungered c0)).x
              (regenerated (agedHungered c0)).y)
            (moved s.world r.moveRoll r.dirRoll (regenerated (agedHungered c0)))).y =
            Biome.water := by
        intro hmode
        have hmode2 : (regenerated (agedHungered c0)).movementMode = MovementMode.water := by
          rw [← moved_movementMode s.world r.moveRoll r.dirRoll]
          exact hmode
        have hc0w : getBiome s.world c0.x c0.y = Biome.water :=
          ha c0 (List.get?_mem hg) hmode2
        have hmv := moved_aquatic s.world r.moveRoll r.dirRoll
          (regenerated (agedHungered c0)) hmode2 hc0w
        rw [fed_x, fed_y]
        exact hmv
      have hs1a : aquaticList s.world (setC s i
          (fed (getBiome s.world (regenerated (agedHungered c0)).x
            (regenerated (agedHungered c0)).y)
          (moved s.world r.moveRoll r.dirRoll (regenerated (agedHungered c0))))).creatures :=
        aquaticList_set ha hc4aq i
      have hs1sp : speciesOkList s.speciesList (setC s i
          (fed (getBiome s.world (regenerated (agedHungered c0)).x
            (regenerated (agedHungered c0)).y)
          (moved s.world r.moveRoll r.dirRoll (regenerated (agedHungered c0))))).creatures := by
        apply speciesOkList_set hsp ?_ i
        exact speciesOk_transfer
          ((fed_speciesId _ _).trans ((moved_speciesId _ _ _ _).trans rfl))
          ((fed_movementMode _ _).trans ((moved_movementMode _ _ _ _).trans rfl))
          hc0sp
      have hs2a := aquaticList_pred r.attackRoll i _ hs1a
      have hs2sp : speciesOkList
          (predationPhase r.attackRoll i (setC s i
            (fed (getBiome s.world (regenerated (agedHungered c0)).x
              (regenerated (agedHungered c0)).y)
            (moved s.world r.moveRoll r.dirRoll (regenerated (agedHungered c0)))))).speciesList
          (predationPhase r.attackRoll i (setC s i
            (fed (getBiome s.world (regenerated (agedHungered c0)).x
              (regenerated (agedHungered c0)).y)
            (moved s.world r.moveRoll r.dirRoll (regenerated (agedHungered c0)))))).creatures := by
        rw [predationPhase_speciesList]
        apply speciesOkList_pred
        · rw [show (setC s i (fed (getBiome s.world (regenerated (agedHungered c0)).x
              (regenerated (agedHungered c0)).y)
            (moved s.world r.moveRoll r.dirRoll (regenerated (agedHungered c0))))).creatures =
              s.creatures.set i _ from rfl]
          rw [List.length_set]
          exact hi
        · exact hs1sp
      split
      · exact aquaticList_repro r.repro i _ hs2a hs2sp
      · exact hs2a

/-- Counterexample to C2 as stated: a Terrestrial creature next to the water
corner accepts an off-grid destination (read as Fields) and is clamped onto
the Water tile (0, 0). -/
theorem terrestrial_on_water_cex :
    ((stepCreatureAt shoreRand 0 shoreState).creatures.getD 0 default).movementMode =
      MovementMode.terrestrial ∧
    ((stepCreatureAt shoreRand 0 shoreState).creatures.getD 0 default).x = 0 ∧
    ((stepCreatureAt shoreRand 0 shoreState).creatures.getD 0 default).y = 0 ∧
    getBiome shoreState.world 0 0 = Biome.water := by
  decide

/-- Witness for the amended C2: an aquatic creature on the water corner is
still on Water after a tick that attempts (and rejects) a move onto land. -/
theorem aquatic_containment_tick_witness :
    getBiome pondState.world
      ((stepCreatureAt pondRand 0 pondState).creatures.getD 0 default).x
      ((stepCreatureAt pondRand 0 pondState).creatures.getD 0 default).y = Biome.water := by
  have h := aquatic_containment_tick pondRand 0 pondState
    (by intro c hc sp hspl; simp [pondState] at hspl) (by decide)
  exact h _ (getD_mem_of_lt _ 0 (by decide)) (by decide)

/-! ### C3: compaction cadence -/

lemma predationPhase_year (ar : ℚ) (i : ℕ) (s : SimState) :
    (predationPhase ar i s).year = s.year := by
  unfold predationPhase setC
  dsimp only
  repeat' split
  all_goals rfl

lemma attemptReproductionAt_year (rnd : ℕ → OffspringRand) (i : ℕ) (s : SimState) :
    (attemptReproductionAt rnd i s).year = s.year := by
  unfold attemptReproductionAt
  repeat' split
  all_goals rfl

lemma stepCreatureAt_year (r : StepRand) (i : ℕ) (s : SimState) :
    (stepCreatureAt r i s).year = s.year := by
  unfold stepCreatureAt
  cases hg : s.creatures.get? i with
  | none => rfl
  | some c0 =>
    dsimp only
    split
    · rfl
    · split
      · rfl
      · split
        · rw [attemptReproductionAt_year, predationPhase_year]
          rfl
        · rw [predationPhase_year]
          rfl

lemma passTick_year (rnd : ℕ → StepRand) (i : ℕ) (s : SimState) :
    (passTick rnd i s).year = s.year := by
  unfold passTick
  split
  · exact stepCreatureAt_year _ _ _
  · rfl

lemma runPass_year (rnd : ℕ → StepRand) :
    ∀ (fuel i : ℕ) (s s' : SimState), runPass rnd fuel i s = some s' →
      s'.year = s.year
  | 0, i, s, s' => by
    intro h
    simp [runPass] at h
  | fuel + 1, i, s, s' => by
    intro h
    rw [runPass] at h
    split at h
    · exact (runPass_year rnd fuel (i+1) _ s' h).trans (passTick_year rnd i s)
    · injection h with h
      rw [← h]

lemma halveEnergyAt_get?_ne (cs : List Creature) (idx j : ℕ) (h : idx ≠ j) :
    (halveEnergyAt cs idx).get? j = cs.get? j := by
  unfold halveEnergyAt
  cases hg : cs.get? idx with
  | none => rfl
  | some c0 => exact List.get?_set_ne _ _ h

/-- Predation leaves a dead registry entry untouched (the attacked index is
always living, and the acting index differs from the dead one). -/
lemma predationPhase_dead (ar : ℚ) (i : ℕ) (s : SimState) (j : ℕ) (c : Creature)
    (hj : s.creatures.get? j = some c) (hd : c.alive = false) (hij : i ≠ j) :
    (predationPhase ar i s).creatures.get? j = some c := by
  unfold predationPhase
  dsimp only
  split
  case isFalse => exact hj
  case isTrue hroll =>
    cases hf : findNearbyCreature s.creatures i 1 with
    | none => exact hj
    | some j0 =>
      dsimp only
      split
      case isFalse => exact hj
      case isTrue hcond =>
        split
        case isFalse => exact hj
        case isTrue hdiet =>
          have hj0 : j0 ≠ j := by
            intro he
            subst he
            rw [getD_eq_get?_getD, hj] at hcond
            have : c.alive = true := hcond.1
            rw [hd] at this
            exact Bool.noConfusion this
          exact (List.get?_set_ne _ _ hj0).trans ((List.get?_set_ne _ _ hij).trans hj)

/-- Reproduction leaves a dead registry entry untouched: offspring are
appended past it and the two halved parents are living. -/
lemma attemptReproductionAt_dead (rnd : ℕ → OffspringRand) (i : ℕ) (s : SimState)
    (j : ℕ) (c : Creature)
    (hj : s.creatures.get? j = some c) (hd : c.alive = false) (hij : i ≠ j) :
    (attemptReproductionAt rnd i s).creatures.get? j = some c := by
  unfold attemptReproductionAt
  cases hg : s.creatures.get? i with
  | none => exact hj
  | some c0 =>
    dsimp only
    split
    · exact hj
    next hAlive =>
    split
    · exact hj
    next hGate =>
    cases hm : findMate s.creatures i with
    | none => exact hj
    | some m =>
      dsimp only
      have hjlen : j < s.creatures.length := by
        by_contra hjl
        rw [List.get?_eq_none.mpr (not_lt.mp hjl)] at hj
        exact Option.noConfusion hj
      have hmj : m ≠ j := by
        intro he
        subst he
        obtain ⟨-, -, o, ho, hoalive, -⟩ :=
          findMateFrom_spec (s.creatures.getD i default) i s.creatures 0 m hm
        rw [Nat.sub_zero] at ho
        rw [hj] at ho
        injection ho with ho
        rw [← ho, hd] at hoalive
        exact Bool.noConfusion hoalive
      rw [halveEnergyAt_get?_ne _ _ _ hmj, halveEnergyAt_get?_ne _ _ _ hij]
      exact (List.get?_append hjlen).trans hj

/-- A tick of any index leaves a dead registry entry untouched. -/
lemma stepCreatureAt_dead (r : StepRand) (i : ℕ) (s : SimState) (j : ℕ) (c : Creature)
    (hj : s.creatures.get? j = some c) (hd : c.alive = false) :
    (stepCreatureAt r i s).creatures.get? j = some c := by
  unfold stepCreatureAt
  cases hg : s.creatures.get? i with
  | none => exact hj
  | some c0 =>
    dsimp only
    split
    · exact hj
    next hAlive =>
    have hc0 : c0.alive = true := by
      cases hca : c0.alive
      · exact absurd hca hAlive
      · rfl
    have hij : i ≠ j := by
      intro he
      subst he
      rw [hg] at hj
      injection hj with hj
      rw [hj] at hc0
      rw [hd] at hc0
      exact Bool.noConfusion hc0
    split
    · exact (List.get?_set_ne _ _ hij).trans hj
    next hDeath =>
      have hs1 : (setC s i
          (fed (getBiome s.world (regenerated (agedHungered c0)).x
            (regenerated (agedHungered c0)).y)
          (moved s.world r.moveRoll r.dirRoll
            (regenerated (agedHungered c0))))).creatures.get? j = some c :=
        (List.get?_set_ne _ _ hij).trans hj
      have hs2 := predationPhase_dead r.attackRoll i _ j c hs1 hd hij
      split
      · exact attemptReproductionAt_dead _ _ _ _ _ hs2 hd hij
      · exact hs2

lemma passTick_dead (rnd : ℕ → StepRand) (i : ℕ) (s : SimState) (j : ℕ) (c : Creature)
    (hj : s.creatures.get? j = some c) (hd : c.alive = false) :
    (passTick rnd i s).creatures.get? j = some c := by
  unfold passTick
  split
  · exact stepCreatureAt_dead _ _ _ _ _ hj hd
  · exact hj

lemma runPass_dead (rnd : ℕ → StepRand) :
    ∀ (fuel i : ℕ) (s s' : SimState) (j : ℕ) (c : Creature),
      runPass rnd fuel i s = some s' →
      s.creatures.get? j = some c → c.alive = false →
      s'.creatures.get? j = some c
  | 0, i, s, s', j, c => by
    intro h
    simp [runPass] at h
  | fuel + 1, i, s, s', j, c => by
    intro h hj hd
    rw [runPass] at h
    split at h
    · exact runPass_dead rnd fuel (i+1) _ s' j c h (passTick_dead rnd i s j c hj hd) hd
    · injection h with h
      rw [← h]
      exact hj

/-- The floor of `k / 500` over the rationals is the natural division. -/
lemma floor_nat_div500 (k : ℕ) : ⌊(k : ℚ) / 500⌋ = ((k / 500 : ℕ) : ℤ) := by
  rw [Int.floor_eq_iff]
  have h1 : ((k / 500 : ℕ) : ℚ) * 500 ≤ (k : ℚ) := by
    exact_mod_cast Nat.div_mul_le_self k 500
  have h2n : k < (k / 500 + 1) * 500 := by omega
  have h2 : (k : ℚ) < (((k / 500 : ℕ) : ℚ) + 1) * 500 := by
    exact_mod_cast h2n
  constructor
  · rw [Int.cast_natCast]
    linarith
  · rw [Int.cast_natCast]
    linarith

/-- The compaction guard in exact arithmetic: for a year counter that has
advanced `k` hundredths, `year % 5 === 0` holds exactly when `k` is a
multiple of 500 — that is, every 500 steps, not every 5. -/
lemma jsMod_div100 (k : ℕ) : jsMod ((k : ℚ) / 100) 5 = 0 ↔ (500 : ℕ) ∣ k := by
  unfold jsMod ratTrunc
  have hq : ((k : ℚ) / 100) / 5 = (k : ℚ) / 500 := by ring
  rw [hq]
  have hnn : ¬ ((k : ℚ) / 500 < 0) := not_lt.mpr (by positivity)
  rw [if_neg hnn, floor_nat_div500, Int.cast_natCast]
  constructor
  · intro h
    have hk : (k : ℚ) = 500 * ((k / 500 : ℕ) : ℚ) := by linarith
    have hk2 : k = 500 * (k / 500) := by exact_mod_cast hk
    omega
  · rintro ⟨m, rfl⟩
    rw [Nat.mul_div_cancel_left m (by norm_num : 0 < 500)]
    push_cast
    ring

/-- C3 (amended): dead creatures are removed only at step boundaries where
the pre-increment year counter satisfies `year % 5 === 0`; since the year
advances by 0.01 per step, under exact arithmetic this happens when the
hundredth-counter is a multiple of 500 — every 500 steps, not every 5.  At
any other step boundary every dead creature keeps its registry slot
untouched, and at a compaction boundary no dead creature survives.
Compaction never happens mid-step. -/
theorem compaction_cadence :
    (∀ (rnd : ℕ → StepRand) (fuel : ℕ) (s s' : SimState) (j : ℕ) (c : Creature),
      stepSimulation rnd fuel s = some s' → jsMod s.year 5 ≠ 0 →
      s.creatures.get? j = some c → c.alive = false →
      s'.creatures.get? j = some c) ∧
    (∀ (rnd : ℕ → StepRand) (fuel : ℕ) (s s' : SimState),
      stepSimulation rnd fuel s = some s' → jsMod s.year 5 = 0 →
      ∀ c ∈ s'.creatures, c.alive = true) ∧
    (∀ k : ℕ, jsMod ((k : ℚ) / 100) 5 = 0 ↔ (500 : ℕ) ∣ k) := by
  refine ⟨?_, ?_, jsMod_div100⟩
  · intro rnd fuel s s' j c hstep hmod hj hd
    unfold stepSimulation at hstep
    cases hrp : runPass rnd fuel 0 s with
    | none => rw [hrp] at hstep; exact Option.noConfusion hstep
    | some s1 =>
      rw [hrp] at hstep
      dsimp only at hstep
      injection hstep with hstep
      rw [← hstep]
      dsimp only
      rw [if_neg (by rw [runPass_year rnd fuel 0 s s1 hrp]; exact hmod)]
      exact runPass_dead rnd fuel 0 s s1 j c hrp hj hd
  · intro rnd fuel s s' hstep hmod
    unfold stepSimulation at hstep
    cases hrp : runPass rnd fuel 0 s with
    | none => rw [hrp] at hstep; exact Option.noConfusion hstep
    | some s1 =>
      rw [hrp] at hstep
      dsimp only at hstep
      injection hstep with hstep
      rw [← hstep]
      dsimp only
      rw [if_pos (by rw [runPass_year rnd fuel 0 s s1 hrp]; exact hmod)]
      intro c hc
      exact (List.mem_filter.mp hc).2

/-- Counterexample to C3 as stated: five consecutive whole steps from year
0.01 never compact, so the dead creature is still registered afterwards —
although the claim requires a compaction boundary within any five
consecutive steps. -/
theorem compaction_cadence_cex :
    (simSteps quietStepRand 10 5 morgueState).map
      (fun s => (s.creatures.length, (s.creatures.getD 0 default).alive, s.year)) =
      some (1, false, 0.06) := by
  decide

/-- Witness for the amended C3: the year-500 boundary satisfies the guard,
and a non-boundary step preserves the dead entry of the morgue state. -/
theorem compaction_cadence_witness :
    jsMod ((500 : ℕ) / 100 : ℚ) 5 = 0 ∧
    ((stepSimulation quietStepRand 10 morgueState).getD morgueState).creatures.get? 0 =
      some lingeringDead := by
  constructor
  · exact (compaction_cadence.2.2 500).mpr ⟨1, by norm_num⟩
  · have hs := eq_some_getD (stepSimulation quietStepRand 10 morgueState) morgueState
      (by decide)
    exact compaction_cadence.1 quietStepRand 10 morgueState _ 0 lingeringDead hs
      (by decide) rfl rfl

/-! ### C4: feeding biome -/

lemma moved_age (w : World) (mr dr : ℚ) (c : Creature) :
    (moved w mr dr c).age = c.age := by
  unfold moved
  dsimp only
  split <;> rfl

lemma moved_dietType (w : World) (mr dr : ℚ) (c : Creature) :
    (moved w mr dr c).dietType = c.dietType := by
  unfold moved
  dsimp only
  split <;> rfl

lemma fed_age (b : Biome) (c : Creature) : (fed b c).age = c.age := rfl

/-- A failed aggression roll makes the whole predation block a no-op. -/
lemma predationPhase_skip (ar : ℚ) (i : ℕ) (s : SimState)
    (h : ¬(ar < (s.creatures.getD i default).traits.aggression * 0.05)) :
    predationPhase ar i s = s := by
  unfold predationPhase
  dsimp only
  rw [if_neg h]

/-- A failed cooldown gate makes the reproduction attempt a no-op. -/
lemma attemptReproductionAt_skip (rnd : ℕ → OffspringRand) (i : ℕ) (s : SimState)
    (c : Creature) (hg : s.creatures.get? i = some c)
    (hgate : jsMod c.age c.traits.repro_cooldown ≠ 0) :
    attemptReproductionAt rnd i s = s := by
  unfold attemptReproductionAt
  rw [hg]
  dsimp only
  by_cases hal : c.alive = false
  · rw [if_pos hal]
  · rw [if_neg hal, if_pos hgate]

/-- C4 (amended): in a tick that reaches the feeding stage, with a quiet
predation roll and a closed reproduction window, the feeding gain is
`biomeFoodValue(b0, diet) * 0.5 * food_efficiency` where `b0` is the biome
of the tile the creature occupied at the START of the tick — before the
movement of step 4, whatever that movement does — and the result is clamped
to the stomach capacity. -/
theorem feeding_uses_premove_biome (r : StepRand) (i : ℕ) (s : SimState)
    (c0 : Creature) (e2 gain : ℚ)
    (hg : s.creatures.get? i = some c0)
    (halive : c0.alive = true)
    (hsurv : ¬((agedHungered c0).age > (agedHungered c0).traits.max_age ∨
      (agedHungered c0).energy ≤ 0))
    (hatk : ¬(r.attackRoll < c0.traits.aggression * 0.05))
    (hrep : jsMod (c0.age + 1) c0.traits.repro_cooldown ≠ 0)
    (he2 : e2 = min c0.traits.stomach_capacity ((agedHungered c0).energy +
      c0.traits.regen_rate))
    (hgain : gain = biomeFoodValue (getBiome s.world c0.x c0.y) c0.dietType *
      0.5 * c0.traits.food_efficiency) :
    ((stepCreatureAt r i s).creatures.getD i default).energy =
      if e2 + gain > c0.traits.stomach_capacity then c0.traits.stomach_capacity
      else e2 + gain := by
  have hi : i < s.creatures.length := by
    by_contra hic
    rw [List.get?_eq_none.mpr (not_lt.mp hic)] at hg
    exact Option.noConfusion hg
  unfold stepCreatureAt
  rw [hg]
  dsimp only
  rw [if_neg (by simp [halive])]
  rw [if_neg hsurv]
  have hset : (setC s i
      (fed (getBiome s.world (regenerated (agedHungered c0)).x
        (regenerated (agedHungered c0)).y)
      (moved s.world r.moveRoll r.dirRoll
        (regenerated (agedHungered c0))))).creatures.get? i = some
      (fed (getBiome s.world (regenerated (agedHungered c0)).x
        (regenerated (agedHungered c0)).y)
      (moved s.world r.moveRoll r.dirRoll (regenerated (agedHungered c0)))) := by
    rw [show (setC s i _).creatures = s.creatures.set i _ from rfl,
      List.get?_eq_getElem?]
    exact List.getElem?_set_self hi
  have hgetc4 : (setC s i
      (fed (getBiome s.world (regenerated (agedHungered c0)).x
        (regenerated (agedHungered c0)).y)
      (moved s.world r.moveRoll r.dirRoll
        (regenerated (agedHungered c0))))).creatures.getD i default =
      fed (getBiome s.world (regenerated (agedHungered c0)).x
        (regenerated (agedHungered c0)).y)
      (moved s.world r.moveRoll r.dirRoll (regenerated (agedHungered c0))) := by
    rw [getD_eq_get?_getD, hset]
    rfl
  have hskip : predationPhase r.attackRoll i (setC s i
      (fed (getBiome s.world (regenerated (agedHungered c0)).x
        (regenerated (agedHungered c0)).y)
      (moved s.world r.moveRoll r.dirRoll (regenerated (agedHungered c0))))) =
      setC s i
      (fed (getBiome s.world (regenerated (agedHungered c0)).x
        (regenerated (agedHungered c0)).y)
      (moved s.world r.moveRoll r.dirRoll (regenerated (agedHungered c0)))) := by
    apply predationPhase_skip
    rw [hgetc4, fed_traits, moved_traits]
    exact hatk
  have hfinal : (fed (getBiome s.world (regenerated (agedHungered c0)).x
      (regenerated (agedHungered c0)).y)
      (moved s.world r.moveRoll r.dirRoll (regenerated (agedHungered c0)))).energy =
      if e2 + gain > c0.traits.stomach_capacity then c0.traits.stomach_capacity
      else e2 + gain := by
    subst he2 hgain
    unfold fed
    dsimp only
    rw [moved_energy, moved_traits, moved_dietType]
    rfl
  have hrep4 : jsMod (fed (getBiome s.world (regenerated (agedHungered c0)).x
      (regenerated (agedHungered c0)).y)
      (moved s.world r.moveRoll r.dirRoll (regenerated (agedHungered c0)))).age
      (fed (getBiome s.world (regenerated (agedHungered c0)).x
        (regenerated (agedHungered c0)).y)
      (moved s.world r.moveRoll r.dirRoll
        (regenerated (agedHungered c0)))).traits.repro_cooldown ≠ 0 := by
    rw [fed_age, moved_age, fed_traits, moved_traits]
    exact hrep
  rw [hskip]
  split
  · rw [attemptReproductionAt_skip r.repro i _ _ hset hrep4, hgetc4]
    exact hfinal
  · rw [hgetc4]
    exact hfinal

/-- Counterexample to C4 as stated: the herbivore starts on Woods, moves to
Desert during the tick, and still gains the Woods value 1.0 x 0.5 (ending at
energy 50.47) instead of the value of the Desert tile it currently occupies
(which would end at 50.07). -/
theorem feeding_biome_cex :
    ((stepCreatureAt grazerRand 0 grazerState).creatures.getD 0 default).x = 1 ∧
    ((stepCreatureAt grazerRand 0 grazerState).creatures.getD 0 default).y = 0 ∧
    getBiome grazerState.world 1 0 = Biome.desert ∧
    ((stepCreatureAt grazerRand 0 grazerState).creatures.getD 0 default).energy = 50.47 ∧
    ((stepCreatureAt grazerRand 0 grazerState).creatures.getD 0 default).energy ≠
      (50 - 0.03) + biomeFoodValue
        (getBiome grazerState.world
          ((stepCreatureAt grazerRand 0 grazerState).creatures.getD 0 default).x
          ((stepCreatureAt grazerRand 0 grazerState).creatures.getD 0 default).y)
        Diet.herbivore * 0.5 * 1 := by
  decide

/-- Witness for the amended C4 on the Woods-to-Desert scenario. -/
theorem feeding_uses_premove_biome_witness :
    ((stepCreatureAt grazerRand 0 grazerState).creatures.getD 0 default).energy =
      50.47 := by
  have h := feeding_uses_premove_biome grazerRand 0 grazerState grazerCreature
    49.97 0.5 rfl rfl (by decide) (by decide) (by decide) (by decide) (by decide)
  rw [h]
  decide

/-! ### C5: the per-step pass and same-step offspring -/

lemma halveEnergyAt_length (cs : List Creature) (i : ℕ) :
    (halveEnergyAt cs i).length = cs.length := by
  unfold halveEnergyAt
  cases hg : cs.get? i with
  | none => rfl
  | some c0 => exact List.length_set _ _ _

lemma predationPhase_length (ar : ℚ) (i : ℕ) (s : SimState) :
    (predationPhase ar i s).creatures.length = s.creatures.length := by
  unfold predationPhase setC
  dsimp only
  repeat' split
  all_goals simp [List.length_set]

lemma attemptReproductionAt_length (rnd : ℕ → OffspringRand) (i : ℕ) (s : SimState) :
    s.creatures.length ≤ (attemptReproductionAt rnd i s).creatures.length := by
  unfold attemptReproductionAt
  cases hg : s.creatures.get? i with
  | none => exact le_refl _
  | some c =>
    dsimp only
    split
    · exact le_refl _
    · split
      · exact le_refl _
      · cases hm : findMate s.creatures i with
        | none => exact le_refl _
        | some m =>
          dsimp only
          rw [halveEnergyAt_length, halveEnergyAt_length, List.length_append]
          exact Nat.le_add_right _ _

/-- A tick never removes creatures: lengths are monotone. -/
lemma stepCreatureAt_length (r : StepRand) (i : ℕ) (s : SimState) :
    s.creatures.length ≤ (stepCreatureAt r i s).creatures.length := by
  unfold stepCreatureAt
  cases hg : s.creatures.get? i with
  | none => exact le_refl _
  | some c0 =>
    dsimp only
    split
    · exact le_refl _
    · split
      · rw [show (setC s i _).creatures = s.creatures.set i _ from rfl,
          List.length_set]
      · split
        · refine le_trans ?_ (attemptReproductionAt_length _ _ _)
          rw [predationPhase_length,
            show (setC s i _).creatures = s.creatures.set i _ from rfl,
            List.length_set]
        · rw [predationPhase_length,
            show (setC s i _).creatures = s.creatures.set i _ from rfl,
            List.length_set]

lemma passTick_length (rnd : ℕ → StepRand) (i : ℕ) (s : SimState) :
    s.creatures.length ≤ (passTick rnd i s).creatures.length := by
  unfold passTick
  split
  · exact stepCreatureAt_length _ _ _
  · exact le_refl _

lemma runPass_length_le (rnd : ℕ → StepRand) :
    ∀ (fuel i : ℕ) (s s' : SimState), runPass rnd fuel i s = some s' →
      s.creatures.length ≤ s'.creatures.length
  | 0, i, s, s' => by
    intro h
    simp [runPass] at h
  | fuel + 1, i, s, s' => by
    intro h
    rw [runPass] at h
    split at h
    · exact le_trans (passTick_length rnd i s)
        (runPass_length_le rnd fuel (i+1) _ s' h)
    · injection h with h
      rw [← h]

/-- A completed pass equals the sequential ticking of exactly `passCount`
indices, and the index reached is at least the final list length. -/
lemma runPass_eq_passIter (rnd : ℕ → StepRand) :
    ∀ (fuel i : ℕ) (s s' : SimState), runPass rnd fuel i s = some s' →
      s' = passIter rnd i (passCount rnd fuel i s) s ∧
      s'.creatures.length ≤ i + passCount rnd fuel i s
  | 0, i, s, s' => by
    intro h
    simp [runPass] at h
  | fuel + 1, i, s, s' => by
    intro h
    rw [runPass] at h
    rw [passCount]
    split at h
    · next hlt =>
      obtain ⟨h1, h2⟩ := runPass_eq_passIter rnd fuel (i+1) _ s' h
      rw [if_pos hlt]
      constructor
      · rw [h1]
        rfl
      · omega
    · next hlt =>
      injection h with h
      rw [if_neg hlt, ← h]
      exact ⟨rfl, by omega⟩

/-- C5 (amended): the per-step pass does NOT stop at the creatures present
when the step began — its loop bound is the live list length, so it covers
every creature of the final list, including offspring appended during the
step; indices are processed in increasing order, so a parent (at a smaller
index) always ticks before its same-step offspring (appended at the end). -/
theorem pass_covers_appends (rnd : ℕ → StepRand) (fuel : ℕ) (s s' : SimState)
    (h : runPass rnd fuel 0 s = some s') :
    s' = passIter rnd 0 (passCount rnd fuel 0 s) s ∧
    s'.creatures.length ≤ passCount rnd fuel 0 s ∧
    s.creatures.length ≤ s'.creatures.length := by
  obtain ⟨h1, h2⟩ := runPass_eq_passIter rnd fuel 0 s s' h
  exact ⟨h1, by omega, runPass_length_le rnd fuel 0 s s' h⟩

/-- Counterexample to C5 as stated: starting from two creatures, the pass
produces a third (the newborn) and ticks it within the same step — its age
is already 1 when the pass ends, though it was appended mid-pass with age 0. -/
theorem appended_child_ticked_cex :
    packState.creatures.length = 2 ∧
    (runPass quietStepRand 10 0 packState).map
      (fun s => (s.creatures.length, (s.creatures.getD 2 default).age)) =
      some (3, 1) := by
  decide

/-- Witness for the amended C5 on the pack state: the completed pass equals
three sequential ticks (both parents and the same-step newborn). -/
theorem pass_covers_appends_witness :
    (runPass quietStepRand 10 0 packState).getD packState =
      passIter quietStepRand 0 (passCount quietStepRand 10 0 packState) packState ∧
    packState.creatures.length ≤
      ((runPass quietStepRand 10 0 packState).getD packState).creatures.length := by
  have hs := eq_some_getD (runPass quietStepRand 10 0 packState) packState (by decide)
  obtain ⟨h1, h2, h3⟩ := pass_covers_appends quietStepRand 10 packState _ hs
  exact ⟨h1, h3⟩

/-! ### C6: reproduction contract -/

/-- An age that is a natural multiple of the cooldown passes the
`age % repro_cooldown === 0` gate. -/
lemma jsMod_mul_cancel (k : ℕ) (cd : ℚ) (hcd : cd ≠ 0) :
    jsMod ((k : ℚ) * cd) cd = 0 := by
  unfold jsMod ratTrunc
  rw [mul_div_cancel_right₀ _ hcd]
  rw [if_neg (not_lt.mpr (by positivity))]
  rw [Int.floor_natCast]
  push_cast
  ring

/-- Reading the two parents through the double halving: slot 0 and slot 1
hold the energy-halved parents, later slots are untouched. -/
lemma halve_halve_parents (cs : List Creature) (a b : Creature)
    (h0 : cs.get? 0 = some a) (h1 : cs.get? 1 = some b) :
    (halveEnergyAt (halveEnergyAt cs 0) 1).get? 0 =
      some { a with energy := a.energy * 0.5 } ∧
    (halveEnergyAt (halveEnergyAt cs 0) 1).get? 1 =
      some { b with energy := b.energy * 0.5 } ∧
    ∀ j, 2 ≤ j → (halveEnergyAt (halveEnergyAt cs 0) 1).get? j = cs.get? j := by
  have hl1 : 1 < cs.length := by
    by_contra hl
    rw [List.get?_eq_none.mpr (not_lt.mp hl)] at h1
    exact Option.noConfusion h1
  have hinner : halveEnergyAt cs 0 = cs.set 0 { a with energy := a.energy * 0.5 } := by
    unfold halveEnergyAt
    rw [h0]
  have hin0 : (halveEnergyAt cs 0).get? 0 =
      some { a with energy := a.energy * 0.5 } := by
    rw [hinner, List.get?_eq_getElem?]
    exact List.getElem?_set_self (by omega)
  have hin1 : (halveEnergyAt cs 0).get? 1 = some b := by
    rw [hinner]
    exact (List.get?_set_ne _ _ (by omega)).trans h1
  have houter : halveEnergyAt (halveEnergyAt cs 0) 1 =
      (halveEnergyAt cs 0).set 1 { b with energy := b.energy * 0.5 } := by
    conv_lhs => rw [halveEnergyAt]
    rw [hin1]
  refine ⟨?_, ?_, ?_⟩
  · rw [houter]
    exact (List.get?_set_ne _ _ (by omega)).trans hin0
  · rw [houter, List.get?_eq_getElem?]
    exact List.getElem?_set_self (by rw [hinner, List.length_set]; omega)
  · intro j hj
    rw [houter, hinner]
    exact (List.get?_set_ne _ _ (by omega)).trans
      (List.get?_set_ne _ _ (by omega))

/-- C6: for a registry holding exactly two living creatures of the same
species and opposite sex on tiles within Chebyshev distance 1, both with
energy at least half their capacity, and the initiating creature at an age
that is a (natural) multiple of its nonzero cooldown, reproduction succeeds:
exactly `round((o1 + o2) / 2)` offspring are appended, each spawned at the
initiating parent position with the initiating parent species, age 0, energy
50; and both parent energies are halved exactly once, whatever the offspring
count. -/
theorem reproduction_contract (w : World) (sl : List Species) (yr : ℚ)
    (a b : Creature) (k n : ℕ) (sp : Species) (rnd : ℕ → OffspringRand)
    (s' : SimState)
    (ha : a.alive = true) (hb : b.alive = true)
    (hsp : b.speciesId = a.speciesId) (hsex : b.sex ≠ a.sex)
    (hx : |b.x - a.x| ≤ 1) (hy : |b.y - a.y| ≤ 1)
    (hea : a.traits.stomach_capacity * 0.5 ≤ a.energy)
    (heb : b.traits.stomach_capacity * 0.5 ≤ b.energy)
    (hage : a.age = (k : ℚ) * a.traits.repro_cooldown)
    (hcd : a.traits.repro_cooldown ≠ 0)
    (hspl : sl.get? a.speciesId = some sp) (hid : sp.id = a.speciesId)
    (hn : (n : ℤ) = jsRound ((a.traits.offspring_per_cycle +
      b.traits.offspring_per_cycle) / 2))
    (hs' : s' = attemptReproductionAt rnd 0 ⟨w, sl, [a, b], yr⟩) :
    s'.creatures.length = 2 + n ∧
    (∀ j, 2 ≤ j → j < s'.creatures.length →
      (s'.creatures.getD j default).x = a.x ∧
      (s'.creatures.getD j default).y = a.y ∧
      (s'.creatures.getD j default).speciesId = a.speciesId ∧
      (s'.creatures.getD j default).age = 0 ∧
      (s'.creatures.getD j default).energy = 50 ∧
      (s'.creatures.getD j default).alive = true) ∧
    (s'.creatures.getD 0 default).energy = a.energy * 0.5 ∧
    (s'.creatures.getD 1 default).energy = b.energy * 0.5 := by
  have hga : (SimState.mk w sl [a, b] yr).creatures.get? 0 = some a := rfl
  have hfm : findMate [a, b] 0 = some 1 := by
    have hgd : ([a, b] : List Creature).getD 0 default = a := rfl
    unfold findMate
    rw [hgd]
    rw [findMateFrom]
    rw [if_neg (fun hc => hc.2.1 rfl)]
    rw [findMateFrom]
    rw [if_pos ⟨hb, by omega, hsp, hsex,
      not_or.mpr ⟨not_lt.mpr hx, not_lt.mpr hy⟩, not_lt.mpr heb⟩]
  have htn : (jsRound ((a.traits.offspring_per_cycle +
      b.traits.offspring_per_cycle) / 2)).toNat = n := by
    rw [← hn]
    exact Int.toNat_natCast n
  have heq : attemptReproductionAt rnd 0 ⟨w, sl, [a, b], yr⟩ =
      SimState.mk w sl
        (halveEnergyAt (halveEnergyAt ([a, b] ++
          (List.range (jsRound ((a.traits.offspring_per_cycle +
            b.traits.offspring_per_cycle) / 2)).toNat).map (fun j =>
            mkCreature (sl.getD a.speciesId default) a.x a.y
              (if (rnd j).sexRoll < 0.5 then Sex.M else Sex.F)
              (if (rnd j).mutRoll < 0.4 then
                applyMutation (rnd j).mutation
                  (mixTraits (rnd j).mix a.traits b.traits)
              else mixTraits (rnd j).mix a.traits b.traits))) 0) 1) yr := by
    unfold attemptReproductionAt
    rw [hga]
    dsimp only
    rw [if_neg (by simp [ha])]
    rw [if_neg (not_ne_iff.mpr (by rw [hage]; exact jsMod_mul_cancel k _ hcd))]
    rw [hfm]
    rfl
  subst hs'
  rw [heq, htn]
  dsimp only
  have hkidsl : (([a, b] : List Creature) ++
      (List.range n).map (fun j =>
        mkCreature (sl.getD a.speciesId default) a.x a.y
          (if (rnd j).sexRoll < 0.5 then Sex.M else Sex.F)
          (if (rnd j).mutRoll < 0.4 then
            applyMutation (rnd j).mutation (mixTraits (rnd j).mix a.traits b.traits)
          else mixTraits (rnd j).mix a.traits b.traits))).length = 2 + n := by
    rw [List.length_append, List.length_map, List.length_range]
    rfl
  have hab0 : (([a, b] : List Creature) ++
      (List.range n).map (fun j =>
        mkCreature (sl.getD a.speciesId default) a.x a.y
          (if (rnd j).sexRoll < 0.5 then Sex.M else Sex.F)
          (if (rnd j).mutRoll < 0.4 then
            applyMutation (rnd j).mutation (mixTraits (rnd j).mix a.traits b.traits)
          else mixTraits (rnd j).mix a.traits b.traits))).get? 0 = some a :=
    (List.get?_append (by norm_num)).trans rfl
  have hab1 : (([a, b] : List Creature) ++
      (List.range n).map (fun j =>
        mkCreature (sl.getD a.speciesId default) a.x a.y
          (if (rnd j).sexRoll < 0.5 then Sex.M else Sex.F)
          (if (rnd j).mutRoll < 0.4 then
            applyMutation (rnd j).mutation (mixTraits (rnd j).mix a.traits b.traits)
          else mixTraits (rnd j).mix a.traits b.traits))).get? 1 = some b :=
    (List.get?_append (by norm_num)).trans rfl
  obtain ⟨hp0, hp1, hrest⟩ := halve_halve_parents _ a b hab0 hab1
  have hgsp : sl.getD a.speciesId default = sp := by
    rw [getD_eq_get?_getD, hspl]
    rfl
  refine ⟨?_, ?_, ?_, ?_⟩
  · rw [halveEnergyAt_length, halveEnergyAt_length, hkidsl]
  · intro j hj2 hjlt
    rw [halveEnergyAt_length, halveEnergyAt_length, hkidsl] at hjlt
    have hjget : (halveEnergyAt (halveEnergyAt (([a, b] : List Creature) ++
        (List.range n).map (fun j =>
          mkCreature (sl.getD a.speciesId default) a.x a.y
            (if (rnd j).sexRoll < 0.5 then Sex.M else Sex.F)
            (if (rnd j).mutRoll < 0.4 then
              applyMutation (rnd j).mutation (mixTraits (rnd j).mix a.traits b.traits)
            else mixTraits (rnd j).mix a.traits b.traits))) 0) 1).get? j =
        some (mkCreature (sl.getD a.speciesId default) a.x a.y
          (if (rnd (j - 2)).sexRoll < 0.5 then Sex.M else Sex.F)
          (if (rnd (j - 2)).mutRoll < 0.4 then
            applyMutation (rnd (j - 2)).mutation
              (mixTraits (rnd (j - 2)).mix a.traits b.traits)
          else mixTraits (rnd (j - 2)).mix a.traits b.traits)) := by
      rw [hrest j hj2, List.get?_eq_getElem?,
        List.getElem?_append_right (by simpa using hj2),
        show ([a, b] : List Creature).length = 2 from rfl,
        List.getElem?_map, List.getElem?_range (by omega : j - 2 < n)]
      rfl
    rw [getD_eq_get?_getD, hjget]
    refine ⟨rfl, rfl, ?_, rfl, rfl, rfl⟩
    show (sl.getD a.speciesId default).id = a.speciesId
    rw [hgsp, hid]
  · rw [getD_eq_get?_getD, hp0]
    rfl
  · rw [getD_eq_get?_getD, hp1]
    rfl

/-- Witness for C6: the suitor pair (baseline genomes, ages 200 and 0,
energies 40 and 31) produces exactly one offspring at the suitor tile and
both energies are halved. -/
theorem reproduction_contract_witness :
    (attemptReproductionAt (fun _ => quietOffspringRand) 0 suitorState).creatures.length = 3 ∧
    ((attemptReproductionAt (fun _ => quietOffspringRand) 0 suitorState).creatures.getD 2
      default).x = 0 ∧
    ((attemptReproductionAt (fun _ => quietOffspringRand) 0 suitorState).creatures.getD 2
      default).speciesId = 0 ∧
    ((attemptReproductionAt (fun _ => quietOffspringRand) 0 suitorState).creatures.getD 0
      default).energy = 20 ∧
    ((attemptReproductionAt (fun _ => quietOffspringRand) 0 suitorState).creatures.getD 1
      default).energy = 15.5 := by
  obtain ⟨hlen, hkids, he0, he1⟩ := reproduction_contract plainWorld [loneSpecies] 0
    suitorCreature suitedCreature 1 1 loneSpecies (fun _ => quietOffspringRand) _
    rfl rfl rfl (by decide) (by decide) (by decide) (by decide) (by decide)
    (by decide) (by decide) rfl rfl (by decide) rfl
  have hlen3 : (attemptReproductionAt (fun _ => quietOffspringRand) 0
      suitorState).creatures.length = 3 := hlen.trans rfl
  obtain ⟨hx2, -, hsp2, -, -, -⟩ := hkids 2 (by omega) (by omega)
  exact ⟨hlen3, hx2.trans rfl, hsp2.trans rfl, he0.trans (by decide),
    he1.trans (by decide)⟩

/-! ### C9: biome palette coverage -/

/-- A uniform pick with an in-range roll lands inside the list. -/
lemma randomChoice_mem {α : Type} [Inhabited α] (l : List α) (r : ℚ)
    (hne : l ≠ []) (h0 : 0 ≤ r) (h1 : r < 1) : randomChoice l r ∈ l := by
  have hlp : 0 < l.length := List.length_pos.mpr hne
  have hflt : ⌊r * (l.length : ℚ)⌋ < (l.length : ℤ) := by
    apply Int.floor_lt.mpr
    push_cast
    calc r * (l.length : ℚ) < 1 * (l.length : ℚ) :=
          mul_lt_mul_of_pos_right h1 (by exact_mod_cast hlp)
      _ = (l.length : ℚ) := one_mul _
  have hfge : 0 ≤ ⌊r * (l.length : ℚ)⌋ :=
    Int.floor_nonneg.mpr (mul_nonneg h0 (by positivity))
  exact getD_mem_of_lt l _ (by omega)

/-- `Set.add` never grows the set by more than one element. -/
lemma setAdd_length (l : List Biome) (b : Biome) :
    (setAdd l b).length ≤ l.length + 1 := by
  unfold setAdd
  split
  · omega
  · rw [List.length_append]
    simp

/-- `Set.add` keeps the insertion-ordered list deduplicated. -/
lemma setAdd_nodup (l : List Biome) (b : Biome) (h : l.Nodup) :
    (setAdd l b).Nodup := by
  by_cases hmem : b ∈ l
  · rw [setAdd, if_pos hmem]
    exact h
  · rw [setAdd, if_neg hmem]
    exact List.nodup_append.mpr ⟨h, List.nodup_singleton b,
      fun a ha hab => hmem (List.mem_singleton.mp hab ▸ ha)⟩

/-- `Set.add` preserves membership of Water. -/
lemma setAdd_water (l : List Biome) (b : Biome) (h : Biome.water ∈ l) :
    Biome.water ∈ setAdd l b := by
  unfold setAdd
  split
  · exact h
  · exact List.mem_append_left _ h

/-- The palette loop: from a deduplicated seed set containing Water with at
most `n` elements, any successful run returns a deduplicated set of exactly
`n` biomes containing Water. -/
lemma generateBiomesLoop_spec (draws : ℕ → ℚ) (n : ℕ) :
    ∀ (fuel : ℕ) (chosen : List Biome) (k : ℕ) (out : List Biome),
      generateBiomesLoop draws n fuel chosen k = some out →
      chosen.length ≤ n → chosen.Nodup → Biome.water ∈ chosen →
      out.length = n ∧ out.Nodup ∧ Biome.water ∈ out
  | 0, chosen, k, out => by
    intro h hlen hnd hw
    rw [generateBiomesLoop] at h
    by_cases hlt : chosen.length < n
    · rw [if_pos hlt] at h
      exact Option.noConfusion h
    · rw [if_neg hlt] at h
      injection h with h2
      subst h2
      exact ⟨by omega, hnd, hw⟩
  | fuel + 1, chosen, k, out => by
    intro h hlen hnd hw
    rw [generateBiomesLoop] at h
    by_cases hlt : chosen.length < n
    · rw [if_pos hlt] at h
      exact generateBiomesLoop_spec draws n fuel _ (k + 1) out h
        (le_trans (setAdd_length _ _) (by omega))
        (setAdd_nodup _ _ hnd) (setAdd_water _ _ hw)
    · rw [if_neg hlt] at h
      injection h with h2
      subst h2
      exact ⟨by omega, hnd, hw⟩

/-- Every seed biome is drawn from the palette: the first seed is Water, the
others pick from the palette, with the re-roll picking from its non-Water
sublist. -/
lemma mkSeed_biome_mem (W H : ℕ) (pal : List Biome) (r : WorldRand) (i : ℕ)
    (hw : Biome.water ∈ pal) (hnd : pal.Nodup)
    (hsb : ∀ k, 0 ≤ r.seedBiomeRolls k ∧ r.seedBiomeRolls k < 1)
    (hrp : ∀ k, 0 ≤ r.rerollPickRolls k ∧ r.rerollPickRolls k < 1) :
    (mkSeed W H pal r i).biome ∈ pal := by
  have hne : pal ≠ [] := List.ne_nil_of_mem hw
  unfold mkSeed
  dsimp only
  by_cases hi : i = 0
  · rw [if_pos hi]
    exact hw
  · rw [if_neg hi]
    by_cases hc : randomChoice pal (r.seedBiomeRolls i) = Biome.water ∧
        r.rerollRolls i < 0.6 ∧ 1 < pal.length
    · rw [if_pos hc]
      have hfne : pal.filter (fun bb => bb ≠ Biome.water) ≠ [] := by
        intro hnil
        have hall : ∀ b2 ∈ pal, b2 = Biome.water := by
          intro b2 hb2
          have hp := List.filter_eq_nil.mp hnil b2 hb2
          simpa using hp
        have hrep := List.eq_replicate_of_mem hall
        rw [hrep] at hnd
        have hle := List.nodup_replicate.mp hnd
        have h1 := hc.2.2
        omega
      exact (List.mem_filter.mp
        (randomChoice_mem _ _ hfne (hrp i).1 (hrp i).2)).1
    · rw [if_neg hc]
      exact randomChoice_mem _ _ hne (hsb i).1 (hsb i).2

/-- The nearest-seed fold only ever returns a scanned seed or the incoming
accumulator. -/
lemma bestSeedGo_mem (x y : ℤ) (seeds : List Seed) :
    ∀ (best : Option (Seed × ℤ)) (out : Seed × ℤ),
      bestSeedGo x y seeds best = some out → out.1 ∈ seeds ∨ best = some out := by
  induction seeds with
  | nil =>
    intro best out h
    exact Or.inr h
  | cons sd rest ih =>
    intro best out h
    cases best with
    | none =>
      rw [bestSeedGo] at h
      rcases ih _ _ h with hm | he
      · exact Or.inl (List.mem_cons_of_mem _ hm)
      · injection he with he2
        exact Or.inl (by rw [← he2]; exact List.mem_cons_self sd rest)
    | some p =>
      rw [bestSeedGo] at h
      by_cases hlt : (x - sd.x) * (x - sd.x) + (y - sd.y) * (y - sd.y) < p.2
      · rw [if_pos hlt] at h
        rcases ih _ _ h with hm | he
        · exact Or.inl (List.mem_cons_of_mem _ hm)
        · injection he with he2
          exact Or.inl (by rw [← he2]; exact List.mem_cons_self sd rest)
      · rw [if_neg hlt] at h
        rcases ih _ _ h with hm | he
        · exact Or.inl (List.mem_cons_of_mem _ hm)
        · exact Or.inr he

/-- Once the fold carries a candidate it always returns one. -/
lemma bestSeedGo_some (x y : ℤ) (seeds : List Seed) :
    ∀ p : Seed × ℤ, ∃ q, bestSeedGo x y seeds (some p) = some q := by
  induction seeds with
  | nil =>
    intro p
    exact ⟨p, rfl⟩
  | cons sd rest ih =>
    intro p
    rw [bestSeedGo]
    by_cases hlt : (x - sd.x) * (x - sd.x) + (y - sd.y) * (y - sd.y) < p.2
    · rw [if_pos hlt]
      exact ih _
    · rw [if_neg hlt]
      exact ih _

/-- A returned nearest seed is one of the seeds. -/
lemma bestSeedFor_mem (seeds : List Seed) (x y : ℤ) (sd : Seed)
    (h : bestSeedFor seeds x y = some sd) : sd ∈ seeds := by
  unfold bestSeedFor at h
  cases hgo : bestSeedGo x y seeds none with
  | none =>
    rw [hgo] at h
    exact Option.noConfusion h
  | some q =>
    rw [hgo] at h
    injection h with h2
    rcases bestSeedGo_mem x y seeds none q hgo with hm | he
    · exact h2 ▸ hm
    · exact Option.noConfusion he

/-- With at least one seed the nearest-seed query always answers. -/
lemma bestSeedFor_ne_none (seeds : List Seed) (x y : ℤ) (hne : seeds ≠ []) :
    ∃ sd, bestSeedFor seeds x y = some sd := by
  obtain ⟨hd, t, rfl⟩ := List.exists_cons_of_ne_nil hne
  unfold bestSeedFor
  rw [bestSeedGo]
  obtain ⟨q, hq⟩ := bestSeedGo_some x y t
    ((hd, (x - hd.x) * (x - hd.x) + (y - hd.y) * (y - hd.y)) : Seed × ℤ)
  rw [hq]
  exact ⟨q.1, rfl⟩

/-- C9: for any dimensions and any in-range random draws, a successful world
generation picks a deduplicated palette that contains Water and has between 2
and 4 biomes, and every cell of the produced grid carries a palette biome. -/
theorem biome_palette_coverage (W H fuel : ℕ) (r : WorldRand) (pal : List Biome)
    (hvalid : validWorldRolls r)
    (hgen : generateBiomes r.nRoll r.paletteRolls fuel = some pal) :
    Biome.water ∈ pal ∧ 2 ≤ pal.length ∧ pal.length ≤ 4 ∧ pal.Nodup ∧
    (∀ row ∈ generateWorldGrid W H pal r, ∀ c ∈ row, c ∈ pal) ∧
    generateWorld W H r fuel = some ⟨W, H, generateWorldGrid W H pal r⟩ := by
  obtain ⟨⟨hn0, hn1⟩, hpal, hsb, hrp⟩ := hvalid
  have hgen2 := hgen
  have hfl : (⌊r.nRoll * 3⌋).toNat ≤ 2 := by
    have h3 : ⌊r.nRoll * 3⌋ < 3 := Int.floor_lt.mpr (by push_cast; linarith)
    omega
  unfold generateBiomes at hgen
  obtain ⟨hlen, hnd, hw⟩ := generateBiomesLoop_spec r.paletteRolls
    (2 + (⌊r.nRoll * 3⌋).toNat) fuel [Biome.water] 0 pal hgen
    (by simp only [List.length_singleton]; omega)
    (List.nodup_singleton _) (List.mem_singleton_self _)
  refine ⟨hw, by omega, by omega, hnd, ?_, ?_⟩
  · intro row hrow c hc
    simp only [generateWorldGrid] at hrow
    rw [List.mem_map] at hrow
    obtain ⟨gy, -, rfl⟩ := hrow
    rw [List.mem_map] at hc
    obtain ⟨gx, -, rfl⟩ := hc
    have hseedne : generateSeeds W H pal r ≠ [] := by
      unfold generateSeeds
      intro hnil
      have hnl := congrArg List.length hnil
      simp only [List.length_map, List.length_range, List.length_nil] at hnl
      omega
    obtain ⟨sd, hsd⟩ := bestSeedFor_ne_none (generateSeeds W H pal r)
      (gx : ℤ) (gy : ℤ) hseedne
    rw [hsd]
    have hmem := bestSeedFor_mem _ _ _ _ hsd
    unfold generateSeeds at hmem
    rw [List.mem_map] at hmem
    obtain ⟨i, -, rfl⟩ := hmem
    exact mkSeed_biome_mem W H pal r i hw hnd hsb hrp
  · unfold generateWorld
    rw [hgen2]

/-- Witness for C9: with the calm draw record, a 2 by 2 world is generated
with the palette Water and Desert, and the top-left cell carries a palette
biome. -/
theorem biome_palette_coverage_witness :
    generateWorld 2 2 calmWorldRand 10 =
      some ⟨2, 2, generateWorldGrid 2 2 [Biome.water, Biome.desert] calmWorldRand⟩ ∧
    ((generateWorldGrid 2 2 [Biome.water, Biome.desert] calmWorldRand).getD 0
      default).getD 0 default ∈ [Biome.water, Biome.desert] ∧
    2 ≤ ([Biome.water, Biome.desert] : List Biome).length := by
  have H := biome_palette_coverage 2 2 10 calmWorldRand [Biome.water, Biome.desert]
    ⟨⟨by decide, by decide⟩,
      fun _ => ⟨(by norm_num : (0 : ℚ) ≤ 1 / 6), (by norm_num : (1 / 6 : ℚ) < 1)⟩,
      fun _ => ⟨le_refl 0, (by norm_num : (0 : ℚ) < 1)⟩,
      fun _ => ⟨le_refl 0, (by norm_num : (0 : ℚ) < 1)⟩⟩
    (by decide)
  refine ⟨H.2.2.2.2.2, ?_, H.2.1⟩
  exact H.2.2.2.2.1 _ (getD_mem_of_lt _ 0 (by decide)) _ (getD_mem_of_lt _ 0 (by decide))
